import Mathlib

/-!
# vspi_drv: a virtual SPI character driver

A shallow embedding of `vspi_drv.c` (open / release lifecycle, plain read and
write, and the ioctl dispatcher), followed by theorems about it.

Conventions of the embedding:

* C integers are `Nat` / `Int`; a narrowing store is written with an explicit
  `% 2 ^ w`.
* A pointer is an `Option`: `none` is `NULL`.
* What the kernel decides (whether `kmalloc` succeeds, how a sleep on the
  semaphore ends, which user addresses fault) is an explicit argument.
* Every function returns, besides its C return value and the device after the
  call, the list of kernel services it invoked, in order.
* `printk` output and the binding `filep->private_data = dev` are not part of
  the device and are left out: each function takes the device directly.
-/

namespace Vspi

/-! ## errno values (`<linux/errno.h>`) -/

def EINTR : Int := 4
def ENOMEM : Int := 12
def EFAULT : Int := 14
def EINVAL : Int := 22
def ENOTTY : Int := 25
def EUSERS : Int := 87
def EMSGSIZE : Int := 90
def ERESTARTSYS : Int := 512

/-! ## Data model -/

/-- A buffer obtained from `kmalloc`: where it lives and how many bytes were
requested for it. -/
structure Buf where
  addr : Nat
  cap : Nat
deriving DecidableEq

/-- The fields of `struct vspi_dev` that `vspi_drv.c` uses (the declaration is
in `vspi_drv.h`). `sem` is the count of the semaphore, `isOpened` the number of
current openers, `rp` / `wp` the read and write buffers, `mode` and
`bits_per_word` are 8 bit wide, `max_speed_hz` 32 bit wide. -/
structure vspi_dev where
  isMaster : Nat
  sem : Nat
  isOpened : Nat
  rp : Option Buf
  wp : Option Buf
  mode : Nat
  bits_per_word : Nat
  max_speed_hz : Nat
deriving DecidableEq

/-- Kernel services a driver function invokes, as recorded in its trace: the
semaphore taken (`down`) and released (`up`), a `kmalloc` call with its size and
the address it returned, a `kfree` call, and a call of `vspi_message`. -/
inductive Event where
  | down
  | up
  | kmalloc (size : Nat) (ptr : Option Nat)
  | kfree (addr : Nat)
  | message (n_xfers : Nat)
deriving DecidableEq

/-- Addresses handed to `kfree` in a trace, in order. -/
def kfreed : List Event → List Nat
  | [] => []
  | Event.kfree a :: t => a :: kfreed t
  | _ :: t => kfreed t

/-- Number of `kmalloc` calls in a trace. -/
def kmallocs : List Event → Nat
  | [] => 0
  | Event.kmalloc _ _ :: t => kmallocs t + 1
  | _ :: t => kmallocs t

/-- Number of invocations of `vspi_message` in a trace. -/
def messages : List Event → Nat
  | [] => 0
  | Event.message _ :: t => messages t + 1
  | _ :: t => messages t

/-- Result of open, release, read and write. -/
structure Outcome where
  retval : Int
  dev : vspi_dev
  trace : List Event
deriving DecidableEq

/-! ## Kernel primitives -/

/-- How a sleep on a taken semaphore ends: a signal arrives, or the holder's
`up` hands the semaphore over. -/
inductive Wait where
  | signal
  | woken
deriving DecidableEq

/-- Model of `down_interruptible` on a semaphore count: a free semaphore is taken at
once; otherwise the caller sleeps, and either a signal ends the sleep with
`-EINTR` or the holder hands the semaphore over (the count stays 0). -/
def down_interruptible (w : Wait) (count : Nat) : Int × Nat :=
  if count > 0 then (0, count - 1)
  else match w with
    | Wait.signal => (-EINTR, count)
    | Wait.woken => (0, count)

/-- Model of `up` with no sleeper queued. -/
def up (count : Nat) : Nat := count + 1

/-- Model of `kmalloc(size, GFP_KERNEL)`: the next entry of `heap` says whether the
allocation succeeds and at which address; an exhausted `heap` gives `NULL`. -/
def kmalloc (size : Nat) : List (Option Nat) → Option Buf × List (Option Nat)
  | [] => (none, [])
  | none :: rest => (none, rest)
  | some a :: rest => (some ⟨a, size⟩, rest)

/-! ## Module initialisation -/

/-- The loop body of `vspi_init` on slot `i` of the zeroed table. -/
def vspi_init_dev (i : Nat) : vspi_dev :=
  { isMaster := if i = 0 then 1 else 0
    sem := 1
    isOpened := 0
    rp := none
    wp := none
    mode := 0
    bits_per_word := 0
    max_speed_hz := 0 }

/-- Embedding of `vspi_init`: `region` is the result of registering the device numbers,
`table` the result of the `kmalloc` of the device table. `VSPI_NR_DEVS` is a
constant of `vspi_drv.h`. -/
def vspi_init (VSPI_NR_DEVS : Nat) (region : Int) (table : Option Nat) :
    Int × Option (List vspi_dev) :=
  if region < 0 then (region, none)
  else match table with
    | none => (-ENOMEM, none)
    | some _ => (0, some ((List.range VSPI_NR_DEVS).map vspi_init_dev))

/-! ## open and release -/

/-- Embedding of `vspi_open`. The two `if (!dev->rp)` / `if (!dev->wp)` blocks each store the
result of `kmalloc` in the field and give up when the field is still `NULL`. -/
def vspi_open (param_max_bytes_per_ioreq : Nat) (w : Wait) (heap : List (Option Nat))
    (dev : vspi_dev) : Outcome :=
  if (down_interruptible w dev.sem).1 ≠ 0 then
    ⟨-ERESTARTSYS, dev, []⟩
  else
    let dev := { dev with sem := (down_interruptible w dev.sem).2 }
    let tr := [Event.down]
    -- allow max 1 user at the same time
    if dev.isOpened ≠ 0 then
      ⟨-EUSERS, { dev with sem := up dev.sem }, tr ++ [Event.up]⟩
    else
      let dev := { dev with isOpened := dev.isOpened + 1 }
      let a := match dev.rp with
        | none =>
          ((kmalloc param_max_bytes_per_ioreq heap).1, (kmalloc param_max_bytes_per_ioreq heap).2,
            tr ++ [Event.kmalloc param_max_bytes_per_ioreq
              ((kmalloc param_max_bytes_per_ioreq heap).1.map Buf.addr)])
        | some b => (some b, heap, tr)
      let dev := { dev with rp := a.1 }
      if a.1.isNone then
        ⟨-ENOMEM, { dev with sem := up dev.sem }, a.2.2 ++ [Event.up]⟩
      else
        let c := match dev.wp with
          | none =>
            ((kmalloc param_max_bytes_per_ioreq a.2.1).1,
              a.2.2 ++ [Event.kmalloc param_max_bytes_per_ioreq
                ((kmalloc param_max_bytes_per_ioreq a.2.1).1.map Buf.addr)])
          | some b => (some b, a.2.2)
        let dev := { dev with wp := c.1 }
        if c.1.isNone then
          ⟨-ENOMEM, { dev with sem := up dev.sem }, c.2 ++ [Event.up]⟩
        else
          ⟨0, { dev with sem := up dev.sem }, c.2 ++ [Event.up]⟩

/-- Embedding of `vspi_release`. The write buffer is freed before the read buffer. -/
def vspi_release (w : Wait) (dev : vspi_dev) : Outcome :=
  if (down_interruptible w dev.sem).1 ≠ 0 then
    ⟨-ERESTARTSYS, dev, []⟩
  else
    let dev := { dev with sem := (down_interruptible w dev.sem).2 }
    let tr := [Event.down]
    let dev := if dev.isOpened = 0 then dev else { dev with isOpened := dev.isOpened - 1 }
    let a := if dev.isOpened = 0 then
        let f := match dev.wp with
          | some b => ({ dev with wp := none }, tr ++ [Event.kfree b.addr])
          | none => (dev, tr)
        match f.1.rp with
          | some b => ({ f.1 with rp := none }, f.2 ++ [Event.kfree b.addr])
          | none => f
      else (dev, tr)
    ⟨0, { a.1 with sem := up a.1.sem }, a.2 ++ [Event.up]⟩

/-! ## read and write -/

/-- Embedding of `vspi_read`: only the size check is implemented; `retval` keeps its initial
value. -/
def vspi_read (param_max_bytes_per_ioreq : Nat) (dev : vspi_dev) (count : Nat) : Outcome :=
  let retval := -ENOMEM
  if count > param_max_bytes_per_ioreq then ⟨-EMSGSIZE, dev, []⟩
  else ⟨retval, dev, []⟩

/-- Embedding of `vspi_write`: as `vspi_read`. -/
def vspi_write (param_max_bytes_per_ioreq : Nat) (dev : vspi_dev) (count : Nat) : Outcome :=
  let retval := -ENOMEM
  if count > param_max_bytes_per_ioreq then ⟨-EMSGSIZE, dev, []⟩
  else ⟨retval, dev, []⟩

/-! ## ioctl numbers (`<asm-generic/ioctl.h>`, `<linux/spi/spidev.h>`) -/

def IOC_NONE : Nat := 0
def IOC_WRITE : Nat := 1
def IOC_READ : Nat := 2

/-- The macro `_IOC(dir,type,nr,size)`. -/
def IOC (dir type nr size : Nat) : Nat :=
  (dir <<< 30) ||| (type <<< 8) ||| nr ||| (size <<< 16)

/-- The macro `_IOR(type,nr,size)`, with the size in bytes. -/
def IOR (type nr size : Nat) : Nat := IOC IOC_READ type nr size

/-- The macro `_IOW(type,nr,size)`, with the size in bytes. -/
def IOW (type nr size : Nat) : Nat := IOC IOC_WRITE type nr size

/-- The macro `_IOC_DIR`. -/
def IOC_DIR (cmd : Nat) : Nat := (cmd >>> 30) &&& 3

/-- The macro `_IOC_TYPE`. -/
def IOC_TYPE (cmd : Nat) : Nat := (cmd >>> 8) &&& 255

/-- The macro `_IOC_NR`. -/
def IOC_NR (cmd : Nat) : Nat := cmd &&& 255

/-- The macro `_IOC_SIZE`. -/
def IOC_SIZE (cmd : Nat) : Nat := (cmd >>> 16) &&& 16383

/-- The character k. -/
def SPI_IOC_MAGIC : Nat := 107

/-- Value of `sizeof(struct spi_ioc_transfer)`. -/
def sizeof_spi_ioc_transfer : Nat := 32

def SPI_MSGSIZE (N : Nat) : Nat :=
  if N * sizeof_spi_ioc_transfer < 1 <<< 14 then N * sizeof_spi_ioc_transfer else 0

def SPI_IOC_MESSAGE (N : Nat) : Nat := IOW SPI_IOC_MAGIC 0 (SPI_MSGSIZE N)

/-! The eight configuration codes, written out; `ioc_codes` below checks each
against its definition in the header: `_IOR(SPI_IOC_MAGIC, 1, __u8)` and so
on. -/

def SPI_IOC_RD_MODE : Nat := 0x80016b01
def SPI_IOC_WR_MODE : Nat := 0x40016b01
def SPI_IOC_RD_LSB_FIRST : Nat := 0x80016b02
def SPI_IOC_WR_LSB_FIRST : Nat := 0x40016b02
def SPI_IOC_RD_BITS_PER_WORD : Nat := 0x80016b03
def SPI_IOC_WR_BITS_PER_WORD : Nat := 0x40016b03
def SPI_IOC_RD_MAX_SPEED_HZ : Nat := 0x80046b04
def SPI_IOC_WR_MAX_SPEED_HZ : Nat := 0x40046b04

/-- The eight mode flags that `SPI_MODE_MASK` is built from. Their values come
from `<linux/spi/spidev.h>`, so the driver is embedded for any values. -/
structure SpiFlags where
  SPI_CPHA : Nat
  SPI_CPOL : Nat
  SPI_CS_HIGH : Nat
  SPI_LSB_FIRST : Nat
  SPI_3WIRE : Nat
  SPI_LOOP : Nat
  SPI_NO_CS : Nat
  SPI_READY : Nat
deriving DecidableEq

/-- The flag values of the Linux header. -/
def linuxFlags : SpiFlags :=
  { SPI_CPHA := 0x01, SPI_CPOL := 0x02, SPI_CS_HIGH := 0x04, SPI_LSB_FIRST := 0x08,
    SPI_3WIRE := 0x10, SPI_LOOP := 0x20, SPI_NO_CS := 0x40, SPI_READY := 0x80 }

/-- The macro `SPI_MODE_MASK` of `vspi_drv.c`. -/
def SPI_MODE_MASK (F : SpiFlags) : Nat :=
  F.SPI_CPHA ||| F.SPI_CPOL ||| F.SPI_CS_HIGH ||| F.SPI_LSB_FIRST ||| F.SPI_3WIRE |||
    F.SPI_LOOP ||| F.SPI_NO_CS ||| F.SPI_READY

/-- The C expression `~x` as it enters a 32 bit operation. -/
def not32 (x : Nat) : Nat := (2 ^ 32 - 1) ^^^ (x % 2 ^ 32)

/-! ## User memory -/

def VERIFY_READ : Nat := 0
def VERIFY_WRITE : Nat := 1

/-- What the driver can observe of the calling process: the range check
`access_ok(type, addr, size)`, the byte a load from an address yields (`none`
when the load faults), and whether a store to an address goes through. -/
structure UserMem where
  access_ok : Nat → Nat → Nat → Bool
  load : Nat → Option Nat
  store_ok : Nat → Bool

/-- Model of `__get_user` through a `__u8` pointer: the return value and the byte
read. -/
def get_user_u8 (u : UserMem) (addr : Nat) : Int × Nat :=
  match u.load addr with
  | some b => (0, b % 256)
  | none => (-EFAULT, 0)

/-- Model of `__get_user` through a `__u32` pointer (little endian). -/
def get_user_u32 (u : UserMem) (addr : Nat) : Int × Nat :=
  match u.load addr, u.load (addr + 1), u.load (addr + 2), u.load (addr + 3) with
  | some b0, some b1, some b2, some b3 =>
    (0, b0 % 256 + 256 * (b1 % 256) + 65536 * (b2 % 256) + 16777216 * (b3 % 256))
  | _, _, _, _ => (-EFAULT, 0)

/-- Model of `__put_user` through a `__u8` pointer: the return value and the user
memory afterwards. -/
def put_user_u8 (u : UserMem) (val addr : Nat) : Int × UserMem :=
  if u.store_ok addr then
    (0, { u with load := fun a => if a = addr then some (val % 256) else u.load a })
  else (-EFAULT, u)

/-- Model of `__put_user` through a `__u32` pointer (little endian). -/
def put_user_u32 (u : UserMem) (val addr : Nat) : Int × UserMem :=
  if u.store_ok addr && u.store_ok (addr + 1) && u.store_ok (addr + 2) && u.store_ok (addr + 3) then
    (0, { u with load := fun a =>
      if a = addr then some (val % 256)
      else if a = addr + 1 then some (val / 256 % 256)
      else if a = addr + 2 then some (val / 65536 % 256)
      else if a = addr + 3 then some (val / 16777216 % 256)
      else u.load a })
  else (-EFAULT, u)

/-- Model of `__copy_from_user`: the `n` bytes from `addr` on, or `none` when one
of them cannot be read (the C function then returns non-zero). -/
def copy_from_user (u : UserMem) (addr : Nat) : Nat → Option (List Nat)
  | 0 => some []
  | n + 1 =>
    match u.load addr, copy_from_user u (addr + 1) n with
    | some b, some rest => some (b % 256 :: rest)
    | _, _ => none

/-- Result of an ioctl: return value, device and user memory afterwards, and
the trace. -/
structure IoctlOutcome where
  retval : Int
  dev : vspi_dev
  user : UserMem
  trace : List Event

/-! ## The transfer function and the ioctl dispatcher -/

/-- Embedding of `vspi_message`: not implemented in the source, returns 0. -/
def vspi_message (_dev : vspi_dev) (_u_xfers : List Nat) (_n_xfers : Nat) : Int := 0

/-- The value of `err` after the two `access_ok` statements of `vspi_ioctl`:
a request the caller reads from is checked for a writable buffer, and then, if
that went well, a request the caller writes is checked for a readable one. -/
def access_err (u : UserMem) (cmd arg : Nat) : Bool :=
  let err : Bool :=
    if IOC_DIR cmd &&& IOC_READ ≠ 0 then !u.access_ok VERIFY_WRITE arg (IOC_SIZE cmd)
    else false
  if err = false ∧ IOC_DIR cmd &&& IOC_WRITE ≠ 0 then
    !u.access_ok VERIFY_READ arg (IOC_SIZE cmd)
  else err

/-- The `case SPI_IOC_WR_MODE` of the switch in `vspi_ioctl`. -/
def ioctl_wr_mode (F : SpiFlags) (u : UserMem) (dev : vspi_dev) (arg : Nat) : IoctlOutcome :=
  let retval := (get_user_u8 u arg).1
  let tmp := (get_user_u8 u arg).2
  if retval = 0 then
    if tmp &&& not32 (SPI_MODE_MASK F) ≠ 0 then ⟨-EINVAL, dev, u, []⟩
    else
      let tmp := tmp ||| (dev.mode &&& not32 (SPI_MODE_MASK F))
      ⟨retval, { dev with mode := tmp % 2 ^ 8 }, u, []⟩
  else ⟨retval, dev, u, []⟩

/-- The `case SPI_IOC_WR_LSB_FIRST` of the switch in `vspi_ioctl`. -/
def ioctl_wr_lsb_first (F : SpiFlags) (u : UserMem) (dev : vspi_dev) (arg : Nat) :
    IoctlOutcome :=
  let retval := (get_user_u8 u arg).1
  let tmp := (get_user_u8 u arg).2
  if 0 = retval then
    if tmp ≠ 0 then ⟨retval, { dev with mode := (dev.mode ||| F.SPI_LSB_FIRST) % 2 ^ 8 }, u, []⟩
    else ⟨retval, { dev with mode := (dev.mode &&& not32 F.SPI_LSB_FIRST) % 2 ^ 8 }, u, []⟩
  else ⟨retval, dev, u, []⟩

/-- The `case SPI_IOC_WR_BITS_PER_WORD` of the switch in `vspi_ioctl`. -/
def ioctl_wr_bits_per_word (u : UserMem) (dev : vspi_dev) (arg : Nat) : IoctlOutcome :=
  let retval := (get_user_u8 u arg).1
  let tmp := (get_user_u8 u arg).2
  if 0 = retval then ⟨retval, { dev with bits_per_word := tmp % 2 ^ 8 }, u, []⟩
  else ⟨retval, dev, u, []⟩

/-- The `case SPI_IOC_WR_MAX_SPEED_HZ` of the switch in `vspi_ioctl`. -/
def ioctl_wr_max_speed_hz (u : UserMem) (dev : vspi_dev) (arg : Nat) : IoctlOutcome :=
  let retval := (get_user_u32 u arg).1
  let tmp := (get_user_u32 u arg).2
  if 0 = retval then ⟨retval, { dev with max_speed_hz := tmp % 2 ^ 32 }, u, []⟩
  else ⟨retval, dev, u, []⟩

/-- The `default` case of the switch in `vspi_ioctl`: a segmented and/or
full-duplex I/O request. -/
def ioctl_default (heap : List (Option Nat)) (u : UserMem) (dev : vspi_dev) (cmd arg : Nat) :
    IoctlOutcome :=
  if IOC_NR cmd ≠ IOC_NR (SPI_IOC_MESSAGE 0) ∨ IOC_DIR cmd ≠ IOC_WRITE then
    ⟨-ENOTTY, dev, u, []⟩
  else
    let tmp := IOC_SIZE cmd
    if tmp % sizeof_spi_ioc_transfer ≠ 0 then ⟨-EINVAL, dev, u, []⟩
    else
      let n_ioc := tmp / sizeof_spi_ioc_transfer
      if 0 = n_ioc then ⟨0, dev, u, []⟩
      else
        -- copy requests
        match (kmalloc tmp heap).1 with
        | none => ⟨-ENOMEM, dev, u, [Event.kmalloc tmp none]⟩
        | some ioc =>
          match copy_from_user u arg tmp with
          | none =>
            ⟨-EFAULT, dev, u, [Event.kmalloc tmp (some ioc.addr), Event.kfree ioc.addr]⟩
          | some xfers =>
            ⟨vspi_message dev xfers n_ioc, dev, u,
              [Event.kmalloc tmp (some ioc.addr), Event.message n_ioc, Event.kfree ioc.addr]⟩

/-- Embedding of `vspi_ioctl`. The `switch` is the chain of comparisons of `cmd`
with the eight configuration codes; the bodies of the write cases and of the
default case are the functions above. -/
def vspi_ioctl (F : SpiFlags) (heap : List (Option Nat)) (u : UserMem) (dev : vspi_dev)
    (cmd arg : Nat) : IoctlOutcome :=
  if IOC_TYPE cmd ≠ SPI_IOC_MAGIC then ⟨-ENOTTY, dev, u, []⟩
  else if access_err u cmd arg then ⟨-EFAULT, dev, u, []⟩
  -- read requests
  else if cmd = SPI_IOC_RD_MODE then
    ⟨(put_user_u8 u (dev.mode &&& SPI_MODE_MASK F) arg).1, dev,
      (put_user_u8 u (dev.mode &&& SPI_MODE_MASK F) arg).2, []⟩
  else if cmd = SPI_IOC_RD_LSB_FIRST then
    ⟨(put_user_u8 u (if dev.mode &&& F.SPI_LSB_FIRST ≠ 0 then 1 else 0) arg).1, dev,
      (put_user_u8 u (if dev.mode &&& F.SPI_LSB_FIRST ≠ 0 then 1 else 0) arg).2, []⟩
  else if cmd = SPI_IOC_RD_BITS_PER_WORD then
    ⟨(put_user_u8 u dev.bits_per_word arg).1, dev, (put_user_u8 u dev.bits_per_word arg).2, []⟩
  else if cmd = SPI_IOC_RD_MAX_SPEED_HZ then
    ⟨(put_user_u32 u dev.max_speed_hz arg).1, dev, (put_user_u32 u dev.max_speed_hz arg).2, []⟩
  -- write requests
  else if cmd = SPI_IOC_WR_MODE then ioctl_wr_mode F u dev arg
  else if cmd = SPI_IOC_WR_LSB_FIRST then ioctl_wr_lsb_first F u dev arg
  else if cmd = SPI_IOC_WR_BITS_PER_WORD then ioctl_wr_bits_per_word u dev arg
  else if cmd = SPI_IOC_WR_MAX_SPEED_HZ then ioctl_wr_max_speed_hz u dev arg
  else ioctl_default heap u dev cmd arg

/-! ## Sequences of operations on one device -/

/-- One call into the driver on a device, with what the kernel and the calling
process contribute to it. -/
inductive Op where
  | open (w : Wait) (heap : List (Option Nat))
  | release (w : Wait)
  | read (count : Nat)
  | write (count : Nat)
  | ioctl (heap : List (Option Nat)) (u : UserMem) (cmd arg : Nat)

/-- The device after one call. -/
def step (maxb : Nat) (F : SpiFlags) (dev : vspi_dev) : Op → vspi_dev
  | Op.open w heap => (vspi_open maxb w heap dev).dev
  | Op.release w => (vspi_release w dev).dev
  | Op.read count => (vspi_read maxb dev count).dev
  | Op.write count => (vspi_write maxb dev count).dev
  | Op.ioctl heap u cmd arg => (vspi_ioctl F heap u dev cmd arg).dev

/-- The device after a sequence of calls. -/
def run (maxb : Nat) (F : SpiFlags) (dev : vspi_dev) (ops : List Op) : vspi_dev :=
  ops.foldl (step maxb F) dev

/-! ## Predicates and sample inputs used in the statements -/

/-- Every buffer the device holds has the capacity `maxb`. -/
def BufsSized (maxb : Nat) (dev : vspi_dev) : Prop :=
  (∀ b, dev.rp = some b → b.cap = maxb) ∧ (∀ b, dev.wp = some b → b.cap = maxb)

/-- Number of `kmalloc` calls an open of `dev` needs: one per absent buffer. -/
def needed (dev : vspi_dev) : Nat :=
  (if dev.rp.isNone then 1 else 0) + (if dev.wp.isNone then 1 else 0)

/-- The next `n` allocations from `heap` all succeed. -/
def succeeds : Nat → List (Option Nat) → Bool
  | 0, _ => true
  | n + 1, some _ :: rest => succeeds n rest
  | _ + 1, _ => false

/-- A device without opener that still holds a read buffer. -/
def sampleHalf : vspi_dev :=
  { vspi_init_dev 1 with rp := some ⟨4000, 4096⟩ }

/-- The slave device after a successful first open with 4096 byte buffers. -/
def sampleOpened : vspi_dev :=
  (vspi_open 4096 Wait.woken [some 4000, some 9000] (vspi_init_dev 1)).dev

/-- A calling process all of whose memory is accessible and holds the byte `b`
at every address. -/
def userHolding (b : Nat) : UserMem :=
  { access_ok := fun _ _ _ => true, load := fun _ => some b, store_ok := fun _ => true }

/-- A calling process none of whose memory is accessible. -/
def noAccessUser : UserMem :=
  { access_ok := fun _ _ _ => false, load := fun _ => none, store_ok := fun _ => false }

/-- Flag values under which the two top bits of a byte are not mode bits. -/
def narrowFlags : SpiFlags := { linuxFlags with SPI_NO_CS := 0, SPI_READY := 0 }

/-- A read request of one byte, number 1, with the magic type l instead of k. -/
def foreignCmd : Nat := IOR 0x6c 1 1

/-- A message submission whose size, 33 bytes, is one more than one transfer. -/
def oddMessageCmd : Nat := IOW SPI_IOC_MAGIC 0 33

/-- Number of times a trace takes the semaphore. -/
def downs : List Event → Nat
  | [] => 0
  | Event.down :: t => downs t + 1
  | _ :: t => downs t

/-- Number of times a trace releases the semaphore. -/
def ups : List Event → Nat
  | [] => 0
  | Event.up :: t => ups t + 1
  | _ :: t => ups t

/-- What an ioctl can do to the device: nothing, or, returning 0, a change
confined to the three configuration fields. -/
def ConfigOnly (dev : vspi_dev) (out : IoctlOutcome) : Prop :=
  out.dev = dev ∨
  (out.retval = 0 ∧
    ∃ m b s, out.dev = { dev with mode := m, bits_per_word := b, max_speed_hz := s })

/-- The master device after a successful first open with 4096 byte buffers. -/
def sampleMaster : vspi_dev :=
  (vspi_open 4096 Wait.woken [some 1000, some 2000] (vspi_init_dev 0)).dev

/-- The opened sample device while another caller holds its semaphore. -/
def heldDevice : vspi_dev := { sampleOpened with sem := 0 }

/-- A calling process that has one `struct spi_ioc_transfer` at address 64
(`tx_buf` = 128, `rx_buf` = 0, `len` = 4) and the four bytes de ad be ef to
send at address 128; everything else is zero and all of it is accessible. -/
def segmentUser : UserMem :=
  { access_ok := fun _ _ _ => true
    load := fun a =>
      if a = 64 then some 128
      else if a = 80 then some 4
      else if a = 128 then some 0xde
      else if a = 129 then some 0xad
      else if a = 130 then some 0xbe
      else if a = 131 then some 0xef
      else some 0
    store_ok := fun _ => true }

/-- A read-only request of 32 bytes with the message number 0. -/
def readOnlyMessageCmd : Nat := IOR SPI_IOC_MAGIC 0 32

/-- A write request of one byte with the number 9, which no code has. -/
def unknownNrCmd : Nat := IOW SPI_IOC_MAGIC 9 1

/-- A write request with the number of the mode codes and a size of two bytes. -/
def wrongSizeCmd : Nat := IOW SPI_IOC_MAGIC 1 2

/-! ## Theorems -/

/-- The eight configuration codes are what the macros of the header give. -/
theorem ioc_codes :
    SPI_IOC_RD_MODE = IOR SPI_IOC_MAGIC 1 1 ∧ SPI_IOC_WR_MODE = IOW SPI_IOC_MAGIC 1 1 ∧
    SPI_IOC_RD_LSB_FIRST = IOR SPI_IOC_MAGIC 2 1 ∧
    SPI_IOC_WR_LSB_FIRST = IOW SPI_IOC_MAGIC 2 1 ∧
    SPI_IOC_RD_BITS_PER_WORD = IOR SPI_IOC_MAGIC 3 1 ∧
    SPI_IOC_WR_BITS_PER_WORD = IOW SPI_IOC_MAGIC 3 1 ∧
    SPI_IOC_RD_MAX_SPEED_HZ = IOR SPI_IOC_MAGIC 4 4 ∧
    SPI_IOC_WR_MAX_SPEED_HZ = IOW SPI_IOC_MAGIC 4 4 := by
  decide

/-- C1: on a device that already has its one opener, open (semaphore taken)
returns `-EUSERS`; the opener count, both buffers and the configuration are as
before, and nothing is allocated or freed. -/
theorem open_when_opened_EUSERS (maxb : Nat) (w : Wait) (heap : List (Option Nat))
    (dev : vspi_dev) (hopen : dev.isOpened = 1)
    (hacq : (down_interruptible w dev.sem).1 = 0) :
    (vspi_open maxb w heap dev).retval = -EUSERS ∧
    (vspi_open maxb w heap dev).dev.isOpened = dev.isOpened ∧
    (vspi_open maxb w heap dev).dev.rp = dev.rp ∧
    (vspi_open maxb w heap dev).dev.wp = dev.wp ∧
    (vspi_open maxb w heap dev).dev.mode = dev.mode ∧
    (vspi_open maxb w heap dev).dev.bits_per_word = dev.bits_per_word ∧
    (vspi_open maxb w heap dev).dev.max_speed_hz = dev.max_speed_hz ∧
    (vspi_open maxb w heap dev).dev.isMaster = dev.isMaster ∧
    (vspi_open maxb w heap dev).trace = [Event.down, Event.up] := by
  simp [vspi_open, hacq, hopen]

/-- Witness of C1 on the opened sample device. -/
theorem open_when_opened_EUSERS_witness :
    sampleOpened.isOpened = 1 ∧
    (down_interruptible Wait.woken sampleOpened.sem).1 = 0 ∧
    (vspi_open 4096 Wait.woken [some 7] sampleOpened).retval = -EUSERS ∧
    (vspi_open 4096 Wait.woken [some 7] sampleOpened).dev.isOpened = sampleOpened.isOpened ∧
    (vspi_open 4096 Wait.woken [some 7] sampleOpened).dev.rp = sampleOpened.rp ∧
    (vspi_open 4096 Wait.woken [some 7] sampleOpened).dev.wp = sampleOpened.wp :=
  have h := open_when_opened_EUSERS 4096 Wait.woken [some 7] sampleOpened (by decide) (by decide)
  ⟨by decide, by decide, h.1, h.2.1, h.2.2.1, h.2.2.2.1⟩

/-- C2: on a device without opener, when the semaphore is taken and the
allocations the call needs succeed, open returns 0, the opener count becomes 1,
both buffers are present with capacity `maxb`, a buffer that was present is the
same buffer afterwards, `kmalloc` is called once per absent buffer and nothing
is freed, and the configuration is as before. -/
theorem open_success (maxb : Nat) (w : Wait) (heap : List (Option Nat)) (dev : vspi_dev)
    (hclosed : dev.isOpened = 0)
    (hacq : (down_interruptible w dev.sem).1 = 0)
    (halloc : succeeds (needed dev) heap = true)
    (hsized : BufsSized maxb dev) :
    (vspi_open maxb w heap dev).retval = 0 ∧
    (vspi_open maxb w heap dev).dev.isOpened = 1 ∧
    (∃ r, (vspi_open maxb w heap dev).dev.rp = some r ∧ r.cap = maxb) ∧
    (∃ b, (vspi_open maxb w heap dev).dev.wp = some b ∧ b.cap = maxb) ∧
    (∀ r, dev.rp = some r → (vspi_open maxb w heap dev).dev.rp = some r) ∧
    (∀ b, dev.wp = some b → (vspi_open maxb w heap dev).dev.wp = some b) ∧
    kmallocs (vspi_open maxb w heap dev).trace = needed dev ∧
    kfreed (vspi_open maxb w heap dev).trace = [] ∧
    (vspi_open maxb w heap dev).dev.mode = dev.mode ∧
    (vspi_open maxb w heap dev).dev.bits_per_word = dev.bits_per_word ∧
    (vspi_open maxb w heap dev).dev.max_speed_hz = dev.max_speed_hz ∧
    (vspi_open maxb w heap dev).dev.isMaster = dev.isMaster := by
  obtain ⟨isMaster, sem, isOpened, rp, wp, mode, bpw, hz⟩ := dev
  obtain ⟨hr, hw⟩ := hsized
  simp only at hclosed hacq hr hw
  subst hclosed
  cases rp with
  | none =>
    cases wp with
    | none =>
      match heap, halloc with
      | some a :: some b :: rest, _ =>
        simp [vspi_open, hacq, kmalloc, kmallocs, kfreed, needed]
    | some b =>
      have hb := hw b rfl
      match heap, halloc with
      | some a :: rest, _ =>
        simp [vspi_open, hacq, kmalloc, kmallocs, kfreed, needed, hb]
  | some r =>
    have hr := hr r rfl
    cases wp with
    | none =>
      match heap, halloc with
      | some a :: rest, _ =>
        simp [vspi_open, hacq, kmalloc, kmallocs, kfreed, needed, hr]
    | some b =>
      have hb := hw b rfl
      simp [vspi_open, hacq, kmallocs, kfreed, needed, hr, hb]

/-- Witness of C2 on a device whose read buffer is present and whose write
buffer is absent. -/
theorem open_success_witness :
    sampleHalf.isOpened = 0 ∧
    succeeds (needed sampleHalf) [some 9000] = true ∧
    (vspi_open 4096 Wait.signal [some 9000] sampleHalf).retval = 0 ∧
    (vspi_open 4096 Wait.signal [some 9000] sampleHalf).dev.isOpened = 1 ∧
    (vspi_open 4096 Wait.signal [some 9000] sampleHalf).dev.rp = some ⟨4000, 4096⟩ ∧
    kmallocs (vspi_open 4096 Wait.signal [some 9000] sampleHalf).trace = 1 :=
  have h := open_success 4096 Wait.signal [some 9000] sampleHalf (by decide) (by decide)
    (by decide) ⟨by intro b hb; cases hb; rfl, by intro b hb; cases hb⟩
  ⟨by decide, by decide, h.1, h.2.1, h.2.2.2.2.1 _ rfl, h.2.2.2.2.2.2.1⟩

/-- C3: on a device with opener count 0 or 1, release (semaphore taken) returns
0, leaves the opener count 0 and both buffers absent, and the addresses passed
to `kfree` are exactly the buffers that were present, each once; a second
release leaves the device as the first one left it and frees nothing. -/
theorem release_frees_once (w w2 : Wait) (dev : vspi_dev)
    (hcount : dev.isOpened = 0 ∨ dev.isOpened = 1)
    (hacq : (down_interruptible w dev.sem).1 = 0) :
    (vspi_release w dev).retval = 0 ∧
    (vspi_release w dev).dev.isOpened = 0 ∧
    (vspi_release w dev).dev.rp = none ∧
    (vspi_release w dev).dev.wp = none ∧
    kfreed (vspi_release w dev).trace = (dev.wp.toList ++ dev.rp.toList).map Buf.addr ∧
    (vspi_release w dev).dev.mode = dev.mode ∧
    (vspi_release w dev).dev.bits_per_word = dev.bits_per_word ∧
    (vspi_release w dev).dev.max_speed_hz = dev.max_speed_hz ∧
    (vspi_release w2 (vspi_release w dev).dev).retval = 0 ∧
    (vspi_release w2 (vspi_release w dev).dev).dev = (vspi_release w dev).dev ∧
    kfreed (vspi_release w2 (vspi_release w dev).dev).trace = [] := by
  obtain ⟨isMaster, sem, isOpened, rp, wp, mode, bpw, hz⟩ := dev
  simp only at hcount hacq
  have hsem : (down_interruptible w2 (up (down_interruptible w sem).2)).1 = 0 ∧
      up (down_interruptible w2 (up (down_interruptible w sem).2)).2
        = up (down_interruptible w sem).2 := by
    simp [down_interruptible, up]
  obtain ⟨hs1, hs2⟩ := hsem
  rcases hcount with h | h <;> subst h <;> cases rp <;> cases wp <;>
    simp [vspi_release, hacq, hs1, hs2, kfreed]

/-- Witness of C3 on the opened sample device. -/
theorem release_frees_once_witness :
    kfreed (vspi_release Wait.woken sampleOpened).trace = [9000, 4000] ∧
    (vspi_release Wait.signal (vspi_release Wait.woken sampleOpened).dev).dev
      = (vspi_release Wait.woken sampleOpened).dev :=
  have h := release_frees_once Wait.woken Wait.signal sampleOpened (Or.inr (by decide))
    (by decide)
  ⟨h.2.2.2.2.1, h.2.2.2.2.2.2.2.2.2.1⟩

/-- Open leaves an opener count that was at most 1 at most 1. -/
theorem open_count_le (maxb : Nat) (w : Wait) (heap : List (Option Nat)) (dev : vspi_dev)
    (h : dev.isOpened ≤ 1) : (vspi_open maxb w heap dev).dev.isOpened ≤ 1 := by
  unfold vspi_open
  by_cases hd : (down_interruptible w dev.sem).1 = 0
  · by_cases ho : dev.isOpened = 0
    · simp only [hd, ho]
      split_ifs <;> simp_all
    · simp [hd, ho]; exact h
  · simp [hd]; exact h

/-- Release leaves an opener count that was at most 1 at most 1. -/
theorem release_count_le (w : Wait) (dev : vspi_dev)
    (h : dev.isOpened ≤ 1) : (vspi_release w dev).dev.isOpened ≤ 1 := by
  unfold vspi_release
  by_cases hd : (down_interruptible w dev.sem).1 = 0
  · have ho : dev.isOpened = 0 ∨ dev.isOpened = 1 := by omega
    rcases ho with ho | ho <;> simp only [hd, ho] <;> cases dev.wp <;> cases dev.rp <;> simp
  · simp [hd]; exact h

/-- The default case of the switch leaves the device as it is. -/
theorem ioctl_default_dev (heap : List (Option Nat)) (u : UserMem)
    (dev : vspi_dev) (cmd arg : Nat) :
    (ioctl_default heap u dev cmd arg).dev = dev := by
  unfold ioctl_default
  dsimp only
  split_ifs
  · rfl
  · rfl
  · rfl
  · cases (kmalloc (IOC_SIZE cmd) heap).1 with
    | none => rfl
    | some ioc =>
      cases copy_from_user u arg (IOC_SIZE cmd) with
      | none => rfl
      | some x => rfl

/-- The write-mode case changes neither the opener count nor the buffers. -/
theorem ioctl_wr_mode_fields (F : SpiFlags) (u : UserMem) (dev : vspi_dev) (arg : Nat) :
    (ioctl_wr_mode F u dev arg).dev.isOpened = dev.isOpened ∧
    (ioctl_wr_mode F u dev arg).dev.rp = dev.rp ∧
    (ioctl_wr_mode F u dev arg).dev.wp = dev.wp := by
  unfold ioctl_wr_mode; dsimp only; split_ifs <;> exact ⟨rfl, rfl, rfl⟩

/-- The write-bit-order case changes neither the opener count nor the buffers. -/
theorem ioctl_wr_lsb_first_fields (F : SpiFlags) (u : UserMem) (dev : vspi_dev) (arg : Nat) :
    (ioctl_wr_lsb_first F u dev arg).dev.isOpened = dev.isOpened ∧
    (ioctl_wr_lsb_first F u dev arg).dev.rp = dev.rp ∧
    (ioctl_wr_lsb_first F u dev arg).dev.wp = dev.wp := by
  unfold ioctl_wr_lsb_first; dsimp only; split_ifs <;> exact ⟨rfl, rfl, rfl⟩

/-- The write-bits-per-word case changes neither the opener count nor the buffers. -/
theorem ioctl_wr_bits_per_word_fields (u : UserMem) (dev : vspi_dev) (arg : Nat) :
    (ioctl_wr_bits_per_word u dev arg).dev.isOpened = dev.isOpened ∧
    (ioctl_wr_bits_per_word u dev arg).dev.rp = dev.rp ∧
    (ioctl_wr_bits_per_word u dev arg).dev.wp = dev.wp := by
  unfold ioctl_wr_bits_per_word; dsimp only; split_ifs <;> exact ⟨rfl, rfl, rfl⟩

/-- The write-speed case changes neither the opener count nor the buffers. -/
theorem ioctl_wr_max_speed_hz_fields (u : UserMem) (dev : vspi_dev) (arg : Nat) :
    (ioctl_wr_max_speed_hz u dev arg).dev.isOpened = dev.isOpened ∧
    (ioctl_wr_max_speed_hz u dev arg).dev.rp = dev.rp ∧
    (ioctl_wr_max_speed_hz u dev arg).dev.wp = dev.wp := by
  unfold ioctl_wr_max_speed_hz; dsimp only; split_ifs <;> exact ⟨rfl, rfl, rfl⟩

/-- The ioctl dispatcher never changes the opener count or the buffers. -/
theorem ioctl_lifecycle_fields (F : SpiFlags) (heap : List (Option Nat)) (u : UserMem)
    (dev : vspi_dev) (cmd arg : Nat) :
    (vspi_ioctl F heap u dev cmd arg).dev.isOpened = dev.isOpened ∧
    (vspi_ioctl F heap u dev cmd arg).dev.rp = dev.rp ∧
    (vspi_ioctl F heap u dev cmd arg).dev.wp = dev.wp := by
  unfold vspi_ioctl
  by_cases h1 : IOC_TYPE cmd ≠ SPI_IOC_MAGIC
  · rw [if_pos h1]; exact ⟨rfl, rfl, rfl⟩
  rw [if_neg h1]
  by_cases h2 : access_err u cmd arg = true
  · rw [if_pos h2]; exact ⟨rfl, rfl, rfl⟩
  rw [if_neg h2]
  by_cases h3 : cmd = SPI_IOC_RD_MODE
  · rw [if_pos h3]; exact ⟨rfl, rfl, rfl⟩
  rw [if_neg h3]
  by_cases h4 : cmd = SPI_IOC_RD_LSB_FIRST
  · rw [if_pos h4]; exact ⟨rfl, rfl, rfl⟩
  rw [if_neg h4]
  by_cases h5 : cmd = SPI_IOC_RD_BITS_PER_WORD
  · rw [if_pos h5]; exact ⟨rfl, rfl, rfl⟩
  rw [if_neg h5]
  by_cases h6 : cmd = SPI_IOC_RD_MAX_SPEED_HZ
  · rw [if_pos h6]; exact ⟨rfl, rfl, rfl⟩
  rw [if_neg h6]
  by_cases h7 : cmd = SPI_IOC_WR_MODE
  · rw [if_pos h7]; exact ioctl_wr_mode_fields F u dev arg
  rw [if_neg h7]
  by_cases h8 : cmd = SPI_IOC_WR_LSB_FIRST
  · rw [if_pos h8]; exact ioctl_wr_lsb_first_fields F u dev arg
  rw [if_neg h8]
  by_cases h9 : cmd = SPI_IOC_WR_BITS_PER_WORD
  · rw [if_pos h9]; exact ioctl_wr_bits_per_word_fields u dev arg
  rw [if_neg h9]
  by_cases h10 : cmd = SPI_IOC_WR_MAX_SPEED_HZ
  · rw [if_pos h10]; exact ioctl_wr_max_speed_hz_fields u dev arg
  rw [if_neg h10, ioctl_default_dev]
  exact ⟨rfl, rfl, rfl⟩

/-- One call keeps the opener count at most 1. -/
theorem step_count_le (maxb : Nat) (F : SpiFlags) (dev : vspi_dev) (op : Op)
    (h : dev.isOpened ≤ 1) : (step maxb F dev op).isOpened ≤ 1 :=
  match op with
  | Op.open w heap => open_count_le maxb w heap dev h
  | Op.release w => release_count_le w dev h
  | Op.read count => by simp only [step, vspi_read]; split_ifs <;> exact h
  | Op.write count => by simp only [step, vspi_write]; split_ifs <;> exact h
  | Op.ioctl heap u cmd arg => by
    simp only [step]; rw [(ioctl_lifecycle_fields F heap u dev cmd arg).1]; exact h

/-- A sequence of calls keeps the opener count at most 1. -/
theorem run_count_le (maxb : Nat) (F : SpiFlags) (ops : List Op) :
    ∀ dev : vspi_dev, dev.isOpened ≤ 1 → (run maxb F dev ops).isOpened ≤ 1 := by
  induction ops with
  | nil => intro dev h; exact h
  | cons op rest ih =>
    intro dev h
    exact ih (step maxb F dev op) (step_count_le maxb F dev op h)

/-- Open keeps every buffer of the device at capacity `maxb`. -/
theorem open_bufs_sized (maxb : Nat) (w : Wait) (heap : List (Option Nat)) (dev : vspi_dev)
    (h : BufsSized maxb dev) : BufsSized maxb (vspi_open maxb w heap dev).dev := by
  obtain ⟨isMaster, sem, isOpened, rp, wp, mode, bpw, hz⟩ := dev
  obtain ⟨hr, hw⟩ := h
  simp only at hr hw
  unfold vspi_open BufsSized
  by_cases hd : (down_interruptible w sem).1 = 0
  · by_cases ho : isOpened = 0
    · cases rp with
      | none =>
        cases wp with
        | none =>
          match heap with
          | [] => simp [hd, ho, kmalloc]
          | none :: _ => simp [hd, ho, kmalloc]
          | some a :: [] => simp [hd, ho, kmalloc]
          | some a :: none :: _ => simp [hd, ho, kmalloc]
          | some a :: some b :: _ => simp [hd, ho, kmalloc]
        | some b =>
          have hb := hw b rfl
          match heap with
          | [] => simp [hd, ho, kmalloc, hb]
          | none :: _ => simp [hd, ho, kmalloc, hb]
          | some a :: _ => simp [hd, ho, kmalloc, hb]
      | some r =>
        have hr := hr r rfl
        cases wp with
        | none =>
          match heap with
          | [] => simp [hd, ho, kmalloc, hr]
          | none :: _ => simp [hd, ho, kmalloc, hr]
          | some a :: _ => simp [hd, ho, kmalloc, hr]
        | some b =>
          have hb := hw b rfl
          simp [hd, ho, hr, hb]
    · simp [hd, ho]
      exact ⟨hr, hw⟩
  · simp [hd]
    exact ⟨hr, hw⟩

/-- Release keeps every buffer of the device at capacity `maxb`. -/
theorem release_bufs_sized (maxb : Nat) (w : Wait) (dev : vspi_dev)
    (h : BufsSized maxb dev) : BufsSized maxb (vspi_release w dev).dev := by
  obtain ⟨isMaster, sem, isOpened, rp, wp, mode, bpw, hz⟩ := dev
  obtain ⟨hr, hw⟩ := h
  simp only at hr hw
  unfold vspi_release BufsSized
  by_cases hd : (down_interruptible w sem).1 = 0
  · by_cases ho : isOpened = 0
    · cases rp <;> cases wp <;> simp [hd, ho]
    · by_cases h1 : isOpened - 1 = 0
      · cases rp <;> cases wp <;> simp [hd, ho, h1]
      · simp [hd, ho, h1]
        exact ⟨hr, hw⟩
  · simp [hd]
    exact ⟨hr, hw⟩

/-- One call keeps every buffer of the device at capacity `maxb`. -/
theorem step_bufs_sized (maxb : Nat) (F : SpiFlags) (dev : vspi_dev) (op : Op)
    (h : BufsSized maxb dev) : BufsSized maxb (step maxb F dev op) :=
  match op with
  | Op.open w heap => open_bufs_sized maxb w heap dev h
  | Op.release w => release_bufs_sized maxb w dev h
  | Op.read count => by simp only [step, vspi_read]; split_ifs <;> exact h
  | Op.write count => by simp only [step, vspi_write]; split_ifs <;> exact h
  | Op.ioctl heap u cmd arg => by
    obtain ⟨_, h2, h3⟩ := ioctl_lifecycle_fields F heap u dev cmd arg
    unfold BufsSized
    simp only [step]
    rw [h2, h3]
    exact h

/-- In every state a device reaches from its initial state, every buffer it
holds has capacity `maxb`. -/
theorem run_bufs_sized (maxb : Nat) (F : SpiFlags) (i : Nat) (ops : List Op) :
    BufsSized maxb (run maxb F (vspi_init_dev i) ops) := by
  have key : ∀ (l : List Op) (dev : vspi_dev),
      BufsSized maxb dev → BufsSized maxb (run maxb F dev l) := by
    intro l
    induction l with
    | nil => intro dev h; exact h
    | cons op rest ih =>
      intro dev h
      exact ih (step maxb F dev op) (step_bufs_sized maxb F dev op h)
  apply key
  constructor <;> intro b hb <;> simp [vspi_init_dev] at hb

/-- Every device of the table that a successful `vspi_init` creates is
`vspi_init_dev i` for its slot `i`. -/
theorem init_table (nr : Nat) (region : Int) (table : Option Nat) (devs : List vspi_dev)
    (dev : vspi_dev) (hinit : vspi_init nr region table = (0, some devs)) (hdev : dev ∈ devs) :
    ∃ i, i < nr ∧ dev = vspi_init_dev i := by
  unfold vspi_init at hinit
  by_cases hr : region < 0
  · rw [if_pos hr] at hinit
    simp at hinit
  · rw [if_neg hr] at hinit
    cases table with
    | none => simp at hinit
    | some t =>
      simp only [Prod.mk.injEq, Option.some.injEq, true_and] at hinit
      subst hinit
      obtain ⟨i, hi, rfl⟩ := List.mem_map.mp hdev
      exact ⟨i, List.mem_range.mp hi, rfl⟩

/-- C4: for every device of the table that a successful `vspi_init` creates,
after every finite sequence of open, release, read, write and ioctl calls
(whatever each returns) the opener count is 0 or 1. -/
theorem opener_count_invariant (maxb : Nat) (F : SpiFlags) (nr : Nat) (region : Int)
    (table : Option Nat) (devs : List vspi_dev) (dev : vspi_dev) (ops : List Op)
    (hinit : vspi_init nr region table = (0, some devs)) (hdev : dev ∈ devs) :
    (run maxb F dev ops).isOpened = 0 ∨ (run maxb F dev ops).isOpened = 1 := by
  obtain ⟨i, _, rfl⟩ := init_table nr region table devs dev hinit hdev
  have h0 : (vspi_init_dev i).isOpened ≤ 1 := by simp [vspi_init_dev]
  have := run_count_le maxb F ops (vspi_init_dev i) h0
  omega

/-- Witness of C4: the slave of a two-device table, after a failed open, a
second open, a write-mode ioctl, a read, and two releases. -/
theorem opener_count_invariant_witness :
    vspi_init 2 0 (some 64) = (0, some [vspi_init_dev 0, vspi_init_dev 1]) ∧
    ((run 4096 linuxFlags (vspi_init_dev 1)
        [Op.open Wait.woken [some 4000, none], Op.open Wait.woken [some 9000],
         Op.ioctl [] (userHolding 3) SPI_IOC_WR_MODE 16, Op.read 4,
         Op.release Wait.woken, Op.release Wait.woken]).isOpened = 0 ∨
     (run 4096 linuxFlags (vspi_init_dev 1)
        [Op.open Wait.woken [some 4000, none], Op.open Wait.woken [some 9000],
         Op.ioctl [] (userHolding 3) SPI_IOC_WR_MODE 16, Op.read 4,
         Op.release Wait.woken, Op.release Wait.woken]).isOpened = 1) :=
  ⟨by decide, opener_count_invariant 4096 linuxFlags 2 0 (some 64)
    [vspi_init_dev 0, vspi_init_dev 1] (vspi_init_dev 1) _ (by decide) (by decide)⟩

/-- C5: a read and a write of more than `maxb` bytes both return `-EMSGSIZE`,
leave the device as it is and invoke no kernel service. -/
theorem read_write_too_large (maxb : Nat) (dev : vspi_dev) (count : Nat)
    (hcount : count > maxb) :
    (vspi_read maxb dev count).retval = -EMSGSIZE ∧
    (vspi_read maxb dev count).dev = dev ∧
    (vspi_read maxb dev count).trace = [] ∧
    (vspi_write maxb dev count).retval = -EMSGSIZE ∧
    (vspi_write maxb dev count).dev = dev ∧
    (vspi_write maxb dev count).trace = [] := by
  simp [vspi_read, vspi_write, hcount]

/-- Witness of C5: 4097 bytes against the default limit of 4096. -/
theorem read_write_too_large_witness :
    (vspi_read 4096 sampleOpened 4097).retval = -EMSGSIZE ∧
    (vspi_write 4096 sampleOpened 4097).retval = -EMSGSIZE :=
  have h := read_write_too_large 4096 sampleOpened 4097 (by decide)
  ⟨h.1, h.2.2.2.1⟩

/-- C6, the code at the boundary: on the opened sample device a read and a
write of exactly the limit of 4096 bytes both return `-ENOMEM`, a negative
value. -/
theorem read_write_at_limit_ENOMEM :
    sampleOpened.isOpened = 1 ∧
    (vspi_read 4096 sampleOpened 4096).retval = -12 ∧
    (vspi_write 4096 sampleOpened 4096).retval = -12 ∧
    (vspi_read 4096 sampleOpened 4096).retval < 0 ∧
    (vspi_write 4096 sampleOpened 4096).retval < 0 := by
  decide

/-- Bit `i` of `not32 x` is set exactly when `i < 32` and bit `i` of `x` is clear. -/
theorem testBit_not32 (x i : Nat) :
    (not32 x).testBit i = (decide (i < 32) && !x.testBit i) := by
  unfold not32
  rw [Nat.testBit_xor, Nat.testBit_two_pow_sub_one, Nat.testBit_mod_two_pow]
  by_cases h : i < 32 <;> simp [h]

/-- A byte read by `get_user_u8` is below 256. -/
theorem get_user_u8_lt (u : UserMem) (addr v : Nat) (r : Int)
    (h : get_user_u8 u addr = (r, v)) : v < 256 := by
  unfold get_user_u8 at h
  cases hl : u.load addr with
  | none => rw [hl] at h; simp at h; omega
  | some b => rw [hl] at h; simp at h; omega

/-- For a byte, the test `tmp & ~SPI_MODE_MASK` of the driver is zero exactly
when every set bit of the byte is a bit of the mask. -/
theorem and_not32_eq_zero_iff (v m : Nat) (hv : v < 256) :
    v &&& not32 m = 0 ↔ ∀ i, v.testBit i = true → m.testBit i = true := by
  constructor
  · intro h i hi
    have hb : (v &&& not32 m).testBit i = false := by rw [h]; exact Nat.zero_testBit i
    rw [Nat.testBit_and, testBit_not32, hi] at hb
    have hi32 : i < 32 := by
      by_contra hge
      have : v < 2 ^ i := lt_of_lt_of_le hv (by
        calc 256 = 2 ^ 8 := by norm_num
          _ ≤ 2 ^ i := Nat.pow_le_pow_right (by norm_num) (by omega))
      rw [Nat.testBit_lt_two_pow this] at hi
      exact Bool.noConfusion hi
    simpa [hi32] using hb
  · intro h
    apply Nat.eq_of_testBit_eq
    intro i
    rw [Nat.testBit_and, testBit_not32, Nat.zero_testBit]
    cases hvi : v.testBit i with
    | false => simp
    | true => simp [h i hvi]

/-- For a write-only request only the readable check is made. -/
theorem access_err_write (u : UserMem) (cmd arg : Nat) (hdir : IOC_DIR cmd = IOC_WRITE) :
    access_err u cmd arg = !u.access_ok VERIFY_READ arg (IOC_SIZE cmd) := by
  simp [access_err, hdir, IOC_WRITE, IOC_READ]

/-- For a read-only request only the writable check is made. -/
theorem access_err_read (u : UserMem) (cmd arg : Nat) (hdir : IOC_DIR cmd = IOC_READ) :
    access_err u cmd arg = !u.access_ok VERIFY_WRITE arg (IOC_SIZE cmd) := by
  simp [access_err, hdir, IOC_WRITE, IOC_READ]

/-- With an accessible buffer the write-mode code reaches its case of the switch. -/
theorem ioctl_wr_mode_eq (F : SpiFlags) (heap : List (Option Nat)) (u : UserMem)
    (dev : vspi_dev) (arg : Nat) (hacc : u.access_ok VERIFY_READ arg 1 = true) :
    vspi_ioctl F heap u dev SPI_IOC_WR_MODE arg = ioctl_wr_mode F u dev arg := by
  have he : access_err u SPI_IOC_WR_MODE arg = false := by
    rw [access_err_write u _ arg (by decide)]
    have : IOC_SIZE SPI_IOC_WR_MODE = 1 := by decide
    rw [this, hacc]; rfl
  unfold vspi_ioctl
  rw [if_neg (by decide), he]
  rw [if_neg (by decide), if_neg (by decide), if_neg (by decide), if_neg (by decide),
    if_neg (by decide), if_pos rfl]

/-- With an accessible buffer the read-mode code reaches its case of the switch. -/
theorem ioctl_rd_mode_eq (F : SpiFlags) (heap : List (Option Nat)) (u : UserMem)
    (dev : vspi_dev) (arg : Nat) (hacc : u.access_ok VERIFY_WRITE arg 1 = true) :
    vspi_ioctl F heap u dev SPI_IOC_RD_MODE arg =
      ⟨(put_user_u8 u (dev.mode &&& SPI_MODE_MASK F) arg).1, dev,
        (put_user_u8 u (dev.mode &&& SPI_MODE_MASK F) arg).2, []⟩ := by
  have he : access_err u SPI_IOC_RD_MODE arg = false := by
    rw [access_err_read u _ arg (by decide)]
    have : IOC_SIZE SPI_IOC_RD_MODE = 1 := by decide
    rw [this, hacc]; rfl
  unfold vspi_ioctl
  rw [if_neg (by decide), he]
  rw [if_neg (by decide), if_pos rfl]



/-- A set bit of a byte is one of its low eight bits. -/
theorem byte_testBit_lt (v i : Nat) (hv : v < 256) (h : v.testBit i = true) : i < 8 := by
  by_contra hge
  have : v < 2 ^ i := lt_of_lt_of_le hv (by
    calc 256 = 2 ^ 8 := by norm_num
      _ ≤ 2 ^ i := Nat.pow_le_pow_right (by norm_num) (by omega))
  rw [Nat.testBit_lt_two_pow this] at h
  exact Bool.noConfusion h

/-- C7: for every device and every byte `v` copied in by the write-mode
operation that has a bit set which is not a bit of `SPI_MODE_MASK`, the
operation returns `-EINVAL` and the stored mode, like the rest of the device,
is unchanged. -/
theorem wr_mode_rejects_unknown_bit (F : SpiFlags) (heap : List (Option Nat)) (u : UserMem)
    (dev : vspi_dev) (arg v : Nat)
    (hacc : u.access_ok VERIFY_READ arg 1 = true)
    (hget : get_user_u8 u arg = (0, v))
    (hbit : ∃ i, v.testBit i = true ∧ (SPI_MODE_MASK F).testBit i = false) :
    (vspi_ioctl F heap u dev SPI_IOC_WR_MODE arg).retval = -EINVAL ∧
    (vspi_ioctl F heap u dev SPI_IOC_WR_MODE arg).dev.mode = dev.mode ∧
    (vspi_ioctl F heap u dev SPI_IOC_WR_MODE arg).dev = dev ∧
    (vspi_ioctl F heap u dev SPI_IOC_WR_MODE arg).trace = [] := by
  have hv : v < 256 := get_user_u8_lt u arg v 0 hget
  have hne : v &&& not32 (SPI_MODE_MASK F) ≠ 0 := by
    intro h0
    obtain ⟨i, hi, hm⟩ := hbit
    have := (and_not32_eq_zero_iff v _ hv).1 h0 i hi
    rw [hm] at this
    exact Bool.noConfusion this
  rw [ioctl_wr_mode_eq F heap u dev arg hacc]
  unfold ioctl_wr_mode
  simp only [hget]
  rw [if_pos trivial, if_pos hne]
  exact ⟨rfl, rfl, rfl, rfl⟩

/-- Witness of C7: the byte 0x80 under flag values whose mask is 0x3f. -/
theorem wr_mode_rejects_unknown_bit_witness :
    (vspi_ioctl narrowFlags [] (userHolding 0x80) sampleOpened SPI_IOC_WR_MODE 16).retval
      = -EINVAL ∧
    (vspi_ioctl narrowFlags [] (userHolding 0x80) sampleOpened SPI_IOC_WR_MODE 16).dev.mode
      = sampleOpened.mode :=
  have h := wr_mode_rejects_unknown_bit narrowFlags [] (userHolding 0x80) sampleOpened 16 0x80
    (by decide) (by decide) ⟨7, by decide, by decide⟩
  ⟨h.1, h.2.1⟩

/-- C8: for every stored mode `m` (a byte) and every byte `v` copied in by the
write-mode operation all of whose set bits are bits of `SPI_MODE_MASK`, the
operation returns 0, the new mode is `(v | (m & ~SPI_MODE_MASK))` cut to 8 bits,
every bit of `m` outside the mask is preserved, a read-mode operation that
follows stores exactly `v` in the caller's buffer, and bits per word, speed,
opener count and buffers are unchanged. -/
theorem wr_mode_stores (F : SpiFlags) (heap heap2 : List (Option Nat)) (u u2 : UserMem)
    (dev : vspi_dev) (arg arg2 v : Nat)
    (hacc : u.access_ok VERIFY_READ arg 1 = true)
    (hget : get_user_u8 u arg = (0, v))
    (hin : ∀ i, v.testBit i = true → (SPI_MODE_MASK F).testBit i = true)
    (hm : dev.mode < 2 ^ 8)
    (hacc2 : u2.access_ok VERIFY_WRITE arg2 1 = true)
    (hst : u2.store_ok arg2 = true) :
    (vspi_ioctl F heap u dev SPI_IOC_WR_MODE arg).retval = 0 ∧
    (vspi_ioctl F heap u dev SPI_IOC_WR_MODE arg).dev.mode
      = (v ||| (dev.mode &&& not32 (SPI_MODE_MASK F))) % 2 ^ 8 ∧
    (∀ i, (SPI_MODE_MASK F).testBit i = false →
      (vspi_ioctl F heap u dev SPI_IOC_WR_MODE arg).dev.mode.testBit i = dev.mode.testBit i) ∧
    (vspi_ioctl F heap2 u2 (vspi_ioctl F heap u dev SPI_IOC_WR_MODE arg).dev
      SPI_IOC_RD_MODE arg2).retval = 0 ∧
    (vspi_ioctl F heap2 u2 (vspi_ioctl F heap u dev SPI_IOC_WR_MODE arg).dev
      SPI_IOC_RD_MODE arg2).user.load arg2 = some v ∧
    (vspi_ioctl F heap u dev SPI_IOC_WR_MODE arg).dev.bits_per_word = dev.bits_per_word ∧
    (vspi_ioctl F heap u dev SPI_IOC_WR_MODE arg).dev.max_speed_hz = dev.max_speed_hz ∧
    (vspi_ioctl F heap u dev SPI_IOC_WR_MODE arg).dev.isOpened = dev.isOpened ∧
    (vspi_ioctl F heap u dev SPI_IOC_WR_MODE arg).dev.rp = dev.rp ∧
    (vspi_ioctl F heap u dev SPI_IOC_WR_MODE arg).dev.wp = dev.wp := by
  have hv : v < 256 := get_user_u8_lt u arg v 0 hget
  have hz : ¬ (v &&& not32 (SPI_MODE_MASK F) ≠ 0) := by
    rw [not_not]; exact (and_not32_eq_zero_iff v _ hv).2 hin
  have hout : vspi_ioctl F heap u dev SPI_IOC_WR_MODE arg =
      ⟨0, { dev with mode := (v ||| (dev.mode &&& not32 (SPI_MODE_MASK F))) % 2 ^ 8 }, u, []⟩ := by
    rw [ioctl_wr_mode_eq F heap u dev arg hacc]
    unfold ioctl_wr_mode
    simp only [hget]
    rw [if_pos trivial, if_neg hz]
  have hbits : ∀ i, ((v ||| (dev.mode &&& not32 (SPI_MODE_MASK F))) % 2 ^ 8).testBit i
      = (decide (i < 8) && (v.testBit i ||
          (dev.mode.testBit i && (decide (i < 32) && !(SPI_MODE_MASK F).testBit i)))) := by
    intro i
    rw [Nat.testBit_mod_two_pow, Nat.testBit_or, Nat.testBit_and, testBit_not32]
  have hback : ((v ||| (dev.mode &&& not32 (SPI_MODE_MASK F))) % 2 ^ 8 &&& SPI_MODE_MASK F) % 256
      = v := by
    apply Nat.eq_of_testBit_eq
    intro i
    have h256 : (256 : Nat) = 2 ^ 8 := by norm_num
    rw [h256, Nat.testBit_mod_two_pow, Nat.testBit_and, hbits]
    cases hvi : v.testBit i with
    | true =>
      have h8 := byte_testBit_lt v i hv hvi
      simp [h8, hin i hvi]
    | false =>
      cases hmi : (SPI_MODE_MASK F).testBit i <;> simp
  rw [hout]
  refine ⟨rfl, rfl, ?_, ?_, ?_, rfl, rfl, rfl, rfl, rfl⟩
  · intro i hmi
    show ((v ||| (dev.mode &&& not32 (SPI_MODE_MASK F))) % 2 ^ 8).testBit i = dev.mode.testBit i
    rw [hbits, hmi]
    have hvi : v.testBit i = false := by
      cases hvi : v.testBit i with
      | false => rfl
      | true => have := hin i hvi; rw [hmi] at this; exact Bool.noConfusion this
    rw [hvi]
    by_cases h8 : i < 8
    · have h32 : i < 32 := by omega
      simp [h8, h32]
    · have : dev.mode < 2 ^ i :=
        lt_of_lt_of_le hm (Nat.pow_le_pow_right (by norm_num) (by omega))
      rw [Nat.testBit_lt_two_pow this]
      simp [h8]
  · rw [ioctl_rd_mode_eq F heap2 u2 _ arg2 hacc2]
    simp [put_user_u8, hst]
  · rw [ioctl_rd_mode_eq F heap2 u2 _ arg2 hacc2]
    simp only [put_user_u8, hst, if_true]
    rw [hback]

/-- Witness of C8: writing the mode 3 on the opened sample device and reading it back. -/
theorem wr_mode_stores_witness :
    (vspi_ioctl linuxFlags [] (userHolding 3) sampleOpened SPI_IOC_WR_MODE 16).retval = 0 ∧
    (vspi_ioctl linuxFlags [] (userHolding 3) sampleOpened SPI_IOC_WR_MODE 16).dev.mode = 3 ∧
    (vspi_ioctl linuxFlags [] (userHolding 0)
      (vspi_ioctl linuxFlags [] (userHolding 3) sampleOpened SPI_IOC_WR_MODE 16).dev
      SPI_IOC_RD_MODE 32).user.load 32 = some 3 :=
  have h := wr_mode_stores linuxFlags [] [] (userHolding 3) (userHolding 0) sampleOpened 16 32 3
    (by decide) (by decide) (by
      intro i hi
      have h8 : i < 8 := byte_testBit_lt 3 i (by norm_num) hi
      interval_cases i <;> rfl)
    (by decide) (by decide) (by decide)
  ⟨h.1, h.2.1.trans (by decide), h.2.2.2.2.1⟩



/-- A request with the magic type, the message number and no access error
reaches the default case of the switch. -/
theorem ioctl_default_eq (F : SpiFlags) (heap : List (Option Nat)) (u : UserMem)
    (dev : vspi_dev) (cmd arg : Nat)
    (htype : IOC_TYPE cmd = SPI_IOC_MAGIC)
    (hnr : IOC_NR cmd = IOC_NR (SPI_IOC_MESSAGE 0))
    (herr : access_err u cmd arg = false) :
    vspi_ioctl F heap u dev cmd arg = ioctl_default heap u dev cmd arg := by
  have hnr0 : IOC_NR cmd = 0 := by rw [hnr]; decide
  have h1 : cmd ≠ SPI_IOC_RD_MODE := by intro h; rw [h] at hnr0; revert hnr0; decide
  have h2 : cmd ≠ SPI_IOC_RD_LSB_FIRST := by intro h; rw [h] at hnr0; revert hnr0; decide
  have h3 : cmd ≠ SPI_IOC_RD_BITS_PER_WORD := by intro h; rw [h] at hnr0; revert hnr0; decide
  have h4 : cmd ≠ SPI_IOC_RD_MAX_SPEED_HZ := by intro h; rw [h] at hnr0; revert hnr0; decide
  have h5 : cmd ≠ SPI_IOC_WR_MODE := by intro h; rw [h] at hnr0; revert hnr0; decide
  have h6 : cmd ≠ SPI_IOC_WR_LSB_FIRST := by intro h; rw [h] at hnr0; revert hnr0; decide
  have h7 : cmd ≠ SPI_IOC_WR_BITS_PER_WORD := by intro h; rw [h] at hnr0; revert hnr0; decide
  have h8 : cmd ≠ SPI_IOC_WR_MAX_SPEED_HZ := by intro h; rw [h] at hnr0; revert hnr0; decide
  unfold vspi_ioctl
  rw [if_neg (not_not.mpr htype), herr, if_neg (by decide), if_neg h1, if_neg h2, if_neg h3,
    if_neg h4, if_neg h5, if_neg h6, if_neg h7, if_neg h8]

/-- C9: a message submission (magic type, message number, write-only
direction, accessible buffer) whose size is not a multiple of
`sizeof(struct spi_ioc_transfer)` returns `-EINVAL`; `vspi_message` is not
invoked, no kernel service is, and device and user memory are unchanged. -/
theorem message_bad_size_EINVAL (F : SpiFlags) (heap : List (Option Nat)) (u : UserMem)
    (dev : vspi_dev) (cmd arg : Nat)
    (htype : IOC_TYPE cmd = SPI_IOC_MAGIC)
    (hnr : IOC_NR cmd = IOC_NR (SPI_IOC_MESSAGE 0))
    (hdir : IOC_DIR cmd = IOC_WRITE)
    (hacc : u.access_ok VERIFY_READ arg (IOC_SIZE cmd) = true)
    (hsize : IOC_SIZE cmd % sizeof_spi_ioc_transfer ≠ 0) :
    (vspi_ioctl F heap u dev cmd arg).retval = -EINVAL ∧
    messages (vspi_ioctl F heap u dev cmd arg).trace = 0 ∧
    (vspi_ioctl F heap u dev cmd arg).trace = [] ∧
    (vspi_ioctl F heap u dev cmd arg).dev = dev ∧
    (vspi_ioctl F heap u dev cmd arg).user = u := by
  have herr : access_err u cmd arg = false := by
    rw [access_err_write u cmd arg hdir, hacc]; rfl
  have hguard : ¬ (IOC_NR cmd ≠ IOC_NR (SPI_IOC_MESSAGE 0) ∨ IOC_DIR cmd ≠ IOC_WRITE) := by
    rw [not_or, not_not, not_not]; exact ⟨hnr, hdir⟩
  rw [ioctl_default_eq F heap u dev cmd arg htype hnr herr]
  unfold ioctl_default
  rw [if_neg hguard]
  dsimp only
  rw [if_pos hsize]
  exact ⟨rfl, rfl, rfl, rfl, rfl⟩

/-- Witness of C9: a message submission of 33 bytes. -/
theorem message_bad_size_EINVAL_witness :
    IOC_SIZE oddMessageCmd = 33 ∧
    (vspi_ioctl linuxFlags [some 500] (userHolding 0) sampleOpened oddMessageCmd 64).retval
      = -EINVAL ∧
    messages (vspi_ioctl linuxFlags [some 500] (userHolding 0) sampleOpened
      oddMessageCmd 64).trace = 0 :=
  have h := message_bad_size_EINVAL linuxFlags [some 500] (userHolding 0) sampleOpened
    oddMessageCmd 64 (by decide) (by decide) (by decide) (by decide) (by decide)
  ⟨by decide, h.1, h.2.1⟩

/-- C10 as stated fails: a read request with a foreign magic type on a buffer
that is not accessible returns `-ENOTTY`, not `-EFAULT`. -/
theorem foreign_magic_not_EFAULT :
    IOC_TYPE foreignCmd ≠ SPI_IOC_MAGIC ∧
    IOC_DIR foreignCmd &&& IOC_READ ≠ 0 ∧
    noAccessUser.access_ok VERIFY_WRITE 16 (IOC_SIZE foreignCmd) = false ∧
    (vspi_ioctl linuxFlags [] noAccessUser sampleOpened foreignCmd 16).retval = -ENOTTY ∧
    (vspi_ioctl linuxFlags [] noAccessUser sampleOpened foreignCmd 16).retval ≠ -EFAULT := by
  decide

/-- C10, amended: for every operation code with the magic type `SPI_IOC_MAGIC`
and every user buffer that is not accessible for a direction the code implies,
the ioctl returns `-EFAULT`, whatever the number and size of the code, and
device, user memory and trace are unchanged. -/
theorem inaccessible_EFAULT (F : SpiFlags) (heap : List (Option Nat)) (u : UserMem)
    (dev : vspi_dev) (cmd arg : Nat)
    (htype : IOC_TYPE cmd = SPI_IOC_MAGIC)
    (hbad : (IOC_DIR cmd &&& IOC_READ ≠ 0 ∧
              u.access_ok VERIFY_WRITE arg (IOC_SIZE cmd) = false) ∨
            (IOC_DIR cmd &&& IOC_WRITE ≠ 0 ∧
              u.access_ok VERIFY_READ arg (IOC_SIZE cmd) = false)) :
    (vspi_ioctl F heap u dev cmd arg).retval = -EFAULT ∧
    (vspi_ioctl F heap u dev cmd arg).dev = dev ∧
    (vspi_ioctl F heap u dev cmd arg).user = u ∧
    (vspi_ioctl F heap u dev cmd arg).trace = [] := by
  have herr : access_err u cmd arg = true := by
    unfold access_err
    rcases hbad with ⟨hd, ha⟩ | ⟨hd, ha⟩
    · simp [hd, ha]
    · by_cases hr : IOC_DIR cmd &&& IOC_READ ≠ 0
      · cases hw : u.access_ok VERIFY_WRITE arg (IOC_SIZE cmd) <;> simp [hr, hd, ha, hw]
      · simp [hr, hd, ha]
  unfold vspi_ioctl
  rw [if_neg (not_not.mpr htype), herr, if_pos rfl]
  exact ⟨rfl, rfl, rfl, rfl⟩

/-- Witness of amended C10: a write-speed request on inaccessible memory. -/
theorem inaccessible_EFAULT_witness :
    (vspi_ioctl linuxFlags [] noAccessUser sampleOpened SPI_IOC_WR_MAX_SPEED_HZ 16).retval
      = -EFAULT ∧
    (vspi_ioctl linuxFlags [] noAccessUser sampleOpened SPI_IOC_WR_MAX_SPEED_HZ 16).dev
      = sampleOpened :=
  have h := inaccessible_EFAULT linuxFlags [] noAccessUser sampleOpened SPI_IOC_WR_MAX_SPEED_HZ 16
    (by decide) (Or.inr ⟨by decide, by decide⟩)
  ⟨h.1, h.2.1⟩

/-- With an accessible buffer the read-bit-order code reaches its case. -/
theorem ioctl_rd_lsb_first_eq (F : SpiFlags) (heap : List (Option Nat)) (u : UserMem)
    (dev : vspi_dev) (arg : Nat) (hacc : u.access_ok VERIFY_WRITE arg 1 = true) :
    vspi_ioctl F heap u dev SPI_IOC_RD_LSB_FIRST arg =
      ⟨(put_user_u8 u (if dev.mode &&& F.SPI_LSB_FIRST ≠ 0 then 1 else 0) arg).1, dev,
        (put_user_u8 u (if dev.mode &&& F.SPI_LSB_FIRST ≠ 0 then 1 else 0) arg).2, []⟩ := by
  have he : access_err u SPI_IOC_RD_LSB_FIRST arg = false := by
    rw [access_err_read u _ arg (by decide)]
    have : IOC_SIZE SPI_IOC_RD_LSB_FIRST = 1 := by decide
    rw [this, hacc]; rfl
  unfold vspi_ioctl
  rw [if_neg (by decide), he]
  rw [if_neg (by decide), if_neg (by decide), if_pos rfl]

/-- With an accessible buffer the read-bits-per-word code reaches its case. -/
theorem ioctl_rd_bits_per_word_eq (F : SpiFlags) (heap : List (Option Nat)) (u : UserMem)
    (dev : vspi_dev) (arg : Nat) (hacc : u.access_ok VERIFY_WRITE arg 1 = true) :
    vspi_ioctl F heap u dev SPI_IOC_RD_BITS_PER_WORD arg =
      ⟨(put_user_u8 u dev.bits_per_word arg).1, dev,
        (put_user_u8 u dev.bits_per_word arg).2, []⟩ := by
  have he : access_err u SPI_IOC_RD_BITS_PER_WORD arg = false := by
    rw [access_err_read u _ arg (by decide)]
    have : IOC_SIZE SPI_IOC_RD_BITS_PER_WORD = 1 := by decide
    rw [this, hacc]; rfl
  unfold vspi_ioctl
  rw [if_neg (by decide), he]
  rw [if_neg (by decide), if_neg (by decide), if_neg (by decide), if_pos rfl]

/-- With an accessible buffer the read-speed code reaches its case. -/
theorem ioctl_rd_max_speed_hz_eq (F : SpiFlags) (heap : List (Option Nat)) (u : UserMem)
    (dev : vspi_dev) (arg : Nat) (hacc : u.access_ok VERIFY_WRITE arg 4 = true) :
    vspi_ioctl F heap u dev SPI_IOC_RD_MAX_SPEED_HZ arg =
      ⟨(put_user_u32 u dev.max_speed_hz arg).1, dev,
        (put_user_u32 u dev.max_speed_hz arg).2, []⟩ := by
  have he : access_err u SPI_IOC_RD_MAX_SPEED_HZ arg = false := by
    rw [access_err_read u _ arg (by decide)]
    have : IOC_SIZE SPI_IOC_RD_MAX_SPEED_HZ = 4 := by decide
    rw [this, hacc]; rfl
  unfold vspi_ioctl
  rw [if_neg (by decide), he]
  rw [if_neg (by decide), if_neg (by decide), if_neg (by decide), if_neg (by decide),
    if_pos rfl]

/-- With an accessible buffer the write-bit-order code reaches its case. -/
theorem ioctl_wr_lsb_first_eq (F : SpiFlags) (heap : List (Option Nat)) (u : UserMem)
    (dev : vspi_dev) (arg : Nat) (hacc : u.access_ok VERIFY_READ arg 1 = true) :
    vspi_ioctl F heap u dev SPI_IOC_WR_LSB_FIRST arg = ioctl_wr_lsb_first F u dev arg := by
  have he : access_err u SPI_IOC_WR_LSB_FIRST arg = false := by
    rw [access_err_write u _ arg (by decide)]
    have : IOC_SIZE SPI_IOC_WR_LSB_FIRST = 1 := by decide
    rw [this, hacc]; rfl
  unfold vspi_ioctl
  rw [if_neg (by decide), he]
  rw [if_neg (by decide), if_neg (by decide), if_neg (by decide), if_neg (by decide),
    if_neg (by decide), if_neg (by decide), if_pos rfl]

/-- With an accessible buffer the write-bits-per-word code reaches its case. -/
theorem ioctl_wr_bits_per_word_eq (F : SpiFlags) (heap : List (Option Nat)) (u : UserMem)
    (dev : vspi_dev) (arg : Nat) (hacc : u.access_ok VERIFY_READ arg 1 = true) :
    vspi_ioctl F heap u dev SPI_IOC_WR_BITS_PER_WORD arg = ioctl_wr_bits_per_word u dev arg := by
  have he : access_err u SPI_IOC_WR_BITS_PER_WORD arg = false := by
    rw [access_err_write u _ arg (by decide)]
    have : IOC_SIZE SPI_IOC_WR_BITS_PER_WORD = 1 := by decide
    rw [this, hacc]; rfl
  unfold vspi_ioctl
  rw [if_neg (by decide), he]
  rw [if_neg (by decide), if_neg (by decide), if_neg (by decide), if_neg (by decide),
    if_neg (by decide), if_neg (by decide), if_neg (by decide), if_pos rfl]

/-- With an accessible buffer the write-speed code reaches its case. -/
theorem ioctl_wr_max_speed_hz_eq (F : SpiFlags) (heap : List (Option Nat)) (u : UserMem)
    (dev : vspi_dev) (arg : Nat) (hacc : u.access_ok VERIFY_READ arg 4 = true) :
    vspi_ioctl F heap u dev SPI_IOC_WR_MAX_SPEED_HZ arg = ioctl_wr_max_speed_hz u dev arg := by
  have he : access_err u SPI_IOC_WR_MAX_SPEED_HZ arg = false := by
    rw [access_err_write u _ arg (by decide)]
    have : IOC_SIZE SPI_IOC_WR_MAX_SPEED_HZ = 4 := by decide
    rw [this, hacc]; rfl
  unfold vspi_ioctl
  rw [if_neg (by decide), he]
  rw [if_neg (by decide), if_neg (by decide), if_neg (by decide), if_neg (by decide),
    if_neg (by decide), if_neg (by decide), if_neg (by decide), if_neg (by decide), if_pos rfl]

/-- C11: an operation code that is none of the eight configuration codes and
not a write-only message submission (magic type, message number, direction
exactly write), on a buffer that passes the access checks its direction bits
ask for, returns `-ENOTTY`; device, user memory and trace are unchanged. -/
theorem unsupported_ENOTTY (F : SpiFlags) (heap : List (Option Nat)) (u : UserMem)
    (dev : vspi_dev) (cmd arg : Nat)
    (h1 : cmd ≠ SPI_IOC_RD_MODE) (h2 : cmd ≠ SPI_IOC_RD_LSB_FIRST)
    (h3 : cmd ≠ SPI_IOC_RD_BITS_PER_WORD) (h4 : cmd ≠ SPI_IOC_RD_MAX_SPEED_HZ)
    (h5 : cmd ≠ SPI_IOC_WR_MODE) (h6 : cmd ≠ SPI_IOC_WR_LSB_FIRST)
    (h7 : cmd ≠ SPI_IOC_WR_BITS_PER_WORD) (h8 : cmd ≠ SPI_IOC_WR_MAX_SPEED_HZ)
    (hmsg : ¬ (IOC_TYPE cmd = SPI_IOC_MAGIC ∧ IOC_NR cmd = IOC_NR (SPI_IOC_MESSAGE 0) ∧
      IOC_DIR cmd = IOC_WRITE))
    (haccw : IOC_DIR cmd &&& IOC_READ ≠ 0 →
      u.access_ok VERIFY_WRITE arg (IOC_SIZE cmd) = true)
    (haccr : IOC_DIR cmd &&& IOC_WRITE ≠ 0 →
      u.access_ok VERIFY_READ arg (IOC_SIZE cmd) = true) :
    (vspi_ioctl F heap u dev cmd arg).retval = -ENOTTY ∧
    (vspi_ioctl F heap u dev cmd arg).dev = dev ∧
    (vspi_ioctl F heap u dev cmd arg).user = u ∧
    (vspi_ioctl F heap u dev cmd arg).trace = [] := by
  unfold vspi_ioctl
  by_cases ht : IOC_TYPE cmd ≠ SPI_IOC_MAGIC
  · rw [if_pos ht]; exact ⟨rfl, rfl, rfl, rfl⟩
  · have herr : access_err u cmd arg = false := by
      unfold access_err
      by_cases hr : IOC_DIR cmd &&& IOC_READ ≠ 0
      · by_cases hw : IOC_DIR cmd &&& IOC_WRITE ≠ 0
        · simp [hr, hw, haccw hr, haccr hw]
        · simp [hr, hw, haccw hr]
      · by_cases hw : IOC_DIR cmd &&& IOC_WRITE ≠ 0
        · simp [hr, hw, haccr hw]
        · simp [hr, hw]
    have hguard : IOC_NR cmd ≠ IOC_NR (SPI_IOC_MESSAGE 0) ∨ IOC_DIR cmd ≠ IOC_WRITE := by
      by_contra hc
      rw [not_or, not_not, not_not] at hc
      exact hmsg ⟨not_not.mp ht, hc.1, hc.2⟩
    rw [if_neg ht, herr, if_neg (by decide), if_neg h1, if_neg h2, if_neg h3, if_neg h4,
      if_neg h5, if_neg h6, if_neg h7, if_neg h8]
    unfold ioctl_default
    rw [if_pos hguard]
    exact ⟨rfl, rfl, rfl, rfl⟩

/-- Witness of C11: a read-only request with the message number, an unknown
number, the mode number with a size of two bytes, and a foreign magic type. -/
theorem unsupported_ENOTTY_witness :
    (vspi_ioctl linuxFlags [] (userHolding 0) sampleOpened readOnlyMessageCmd 16).retval
      = -ENOTTY ∧
    (vspi_ioctl linuxFlags [] (userHolding 0) sampleOpened unknownNrCmd 16).retval = -ENOTTY ∧
    (vspi_ioctl linuxFlags [] (userHolding 0) sampleOpened wrongSizeCmd 16).retval = -ENOTTY ∧
    (vspi_ioctl linuxFlags [] (userHolding 0) sampleOpened foreignCmd 16).retval = -ENOTTY ∧
    (vspi_ioctl linuxFlags [] (userHolding 0) sampleOpened readOnlyMessageCmd 16).dev
      = sampleOpened :=
  have h1 := unsupported_ENOTTY linuxFlags [] (userHolding 0) sampleOpened readOnlyMessageCmd 16
    (by decide) (by decide) (by decide) (by decide) (by decide) (by decide) (by decide)
    (by decide) (by decide) (fun _ => rfl) (fun _ => rfl)
  have h2 := unsupported_ENOTTY linuxFlags [] (userHolding 0) sampleOpened unknownNrCmd 16
    (by decide) (by decide) (by decide) (by decide) (by decide) (by decide) (by decide)
    (by decide) (by decide) (fun _ => rfl) (fun _ => rfl)
  have h3 := unsupported_ENOTTY linuxFlags [] (userHolding 0) sampleOpened wrongSizeCmd 16
    (by decide) (by decide) (by decide) (by decide) (by decide) (by decide) (by decide)
    (by decide) (by decide) (fun _ => rfl) (fun _ => rfl)
  have h4 := unsupported_ENOTTY linuxFlags [] (userHolding 0) sampleOpened foreignCmd 16
    (by decide) (by decide) (by decide) (by decide) (by decide) (by decide) (by decide)
    (by decide) (by decide) (fun _ => rfl) (fun _ => rfl)
  ⟨h1.1, h2.1, h3.1, h4.1, h1.2.1⟩

/-- After a semaphore has been released it can be taken at once. -/
theorem down_after_up (w : Wait) (c : Nat) : down_interruptible w (up c) = (0, c) := by
  simp [down_interruptible, up]

/-- Open on a device with an opener, the semaphore taken, returns `-EUSERS`. -/
theorem open_busy (maxb : Nat) (w : Wait) (heap : List (Option Nat)) (dev : vspi_dev)
    (hbusy : dev.isOpened ≠ 0) (hacq : (down_interruptible w dev.sem).1 = 0) :
    (vspi_open maxb w heap dev).retval = -EUSERS := by
  simp [vspi_open, hacq, hbusy]

/-- Open on a device without opener never returns `-EUSERS`. -/
theorem open_closed_ne_EUSERS (maxb : Nat) (w : Wait) (heap : List (Option Nat))
    (dev : vspi_dev) (hclosed : dev.isOpened = 0) :
    (vspi_open maxb w heap dev).retval ≠ -EUSERS := by
  unfold vspi_open
  by_cases hd : (down_interruptible w dev.sem).1 = 0
  · simp only [hd, hclosed]
    split_ifs <;> simp_all <;> decide
  · simp [hd]; decide

/-- Release with the semaphore taken brings an opener count of at most 1 to 0
and hands the semaphore back. -/
theorem release_closes (w : Wait) (dev : vspi_dev) (h : dev.isOpened ≤ 1)
    (hacq : (down_interruptible w dev.sem).1 = 0) :
    (vspi_release w dev).dev.isOpened = 0 ∧
    (vspi_release w dev).dev.sem = up (down_interruptible w dev.sem).2 := by
  unfold vspi_release
  have ho : dev.isOpened = 0 ∨ dev.isOpened = 1 := by omega
  rcases ho with ho | ho <;> simp only [hacq, ho] <;> cases dev.wp <;> cases dev.rp <;> simp

/-- C12: on a device without opener, when the semaphore is taken and one of the
allocations the call needs fails, open returns `-ENOMEM`, releases the
semaphore (one `down`, one `up`), and leaves the opener count at 1; a read
buffer that was present or was allocated before the failure stays in place.
The next open therefore returns `-EUSERS`, and an open after a release in
between does not. -/
theorem open_alloc_failure (maxb : Nat) (w w2 w3 w4 : Wait) (heap heap2 heap3 : List (Option Nat))
    (dev : vspi_dev)
    (hclosed : dev.isOpened = 0)
    (hacq : (down_interruptible w dev.sem).1 = 0)
    (hfail : succeeds (needed dev) heap = false) :
    (vspi_open maxb w heap dev).retval = -ENOMEM ∧
    (vspi_open maxb w heap dev).dev.isOpened = 1 ∧
    (vspi_open maxb w heap dev).dev.sem = up (down_interruptible w dev.sem).2 ∧
    downs (vspi_open maxb w heap dev).trace = 1 ∧
    ups (vspi_open maxb w heap dev).trace = 1 ∧
    (∀ r, dev.rp = some r → (vspi_open maxb w heap dev).dev.rp = some r) ∧
    (∀ r, dev.rp = none → (kmalloc maxb heap).1 = some r →
      (vspi_open maxb w heap dev).dev.rp = some r ∧ (vspi_open maxb w heap dev).dev.wp = none) ∧
    (vspi_open maxb w2 heap2 (vspi_open maxb w heap dev).dev).retval = -EUSERS ∧
    (vspi_open maxb w4 heap3
      (vspi_release w3 (vspi_open maxb w heap dev).dev).dev).retval ≠ -EUSERS := by
  have first : (vspi_open maxb w heap dev).retval = -ENOMEM ∧
      (vspi_open maxb w heap dev).dev.isOpened = 1 ∧
      (vspi_open maxb w heap dev).dev.sem = up (down_interruptible w dev.sem).2 ∧
      downs (vspi_open maxb w heap dev).trace = 1 ∧
      ups (vspi_open maxb w heap dev).trace = 1 ∧
      (∀ r, dev.rp = some r → (vspi_open maxb w heap dev).dev.rp = some r) ∧
      (∀ r, dev.rp = none → (kmalloc maxb heap).1 = some r →
        (vspi_open maxb w heap dev).dev.rp = some r ∧
          (vspi_open maxb w heap dev).dev.wp = none) := by
    obtain ⟨isMaster, sem, isOpened, rp, wp, mode, bpw, hz⟩ := dev
    simp only at hclosed hacq
    subst hclosed
    cases rp with
    | none =>
      cases wp with
      | none =>
        match heap, hfail with
        | [], _ => simp [vspi_open, hacq, kmalloc, downs, ups]
        | none :: _, _ => simp [vspi_open, hacq, kmalloc, downs, ups]
        | some a :: [], _ => simp [vspi_open, hacq, kmalloc, downs, ups]
        | some a :: none :: _, _ => simp [vspi_open, hacq, kmalloc, downs, ups]
      | some b =>
        match heap, hfail with
        | [], _ => simp [vspi_open, hacq, kmalloc, downs, ups]
        | none :: _, _ => simp [vspi_open, hacq, kmalloc, downs, ups]
    | some r =>
      cases wp with
      | none =>
        match heap, hfail with
        | [], _ => simp [vspi_open, hacq, kmalloc, downs, ups]
        | none :: _, _ => simp [vspi_open, hacq, kmalloc, downs, ups]
      | some b => simp [needed, succeeds] at hfail
  obtain ⟨h1, h2, h3, h4, h5, h6, h7⟩ := first
  refine ⟨h1, h2, h3, h4, h5, h6, h7, ?_, ?_⟩
  · apply open_busy
    · rw [h2]; decide
    · rw [h3, down_after_up]
  · apply open_closed_ne_EUSERS
    exact (release_closes w3 _ (by rw [h2]) (by rw [h3, down_after_up])).1

/-- Witness of C12: the first open of the slave, whose read buffer is allocated
and whose write buffer is not. -/
theorem open_alloc_failure_witness :
    succeeds (needed (vspi_init_dev 1)) [some 4000, none] = false ∧
    (vspi_open 4096 Wait.woken [some 4000, none] (vspi_init_dev 1)).retval = -ENOMEM ∧
    (vspi_open 4096 Wait.woken [some 4000, none] (vspi_init_dev 1)).dev.isOpened = 1 ∧
    (vspi_open 4096 Wait.woken [some 4000, none] (vspi_init_dev 1)).dev.rp
      = some ⟨4000, 4096⟩ ∧
    (vspi_open 4096 Wait.woken [some 1, some 2]
      (vspi_open 4096 Wait.woken [some 4000, none] (vspi_init_dev 1)).dev).retval = -EUSERS :=
  have h := open_alloc_failure 4096 Wait.woken Wait.woken Wait.woken Wait.woken
    [some 4000, none] [some 1, some 2] [some 3, some 4] (vspi_init_dev 1)
    (by decide) (by decide) (by decide)
  ⟨by decide, h.1, h.2.1, (h.2.2.2.2.2.2.1 ⟨4000, 4096⟩ rfl rfl).1, h.2.2.2.2.2.2.2.1⟩

/-- A word read by `get_user_u32` is below `2 ^ 32`. -/
theorem get_user_u32_lt (u : UserMem) (addr s : Nat) (r : Int)
    (h : get_user_u32 u addr = (r, s)) : s < 2 ^ 32 := by
  unfold get_user_u32 at h
  cases h0 : u.load addr <;> cases h1 : u.load (addr + 1) <;> cases h2 : u.load (addr + 2) <;>
    cases h3 : u.load (addr + 3) <;> rw [h0, h1, h2, h3] at h <;>
    simp only [Prod.mk.injEq] at h <;> omega

/-- A byte stored by `put_user_u8` is the byte a load from that address yields. -/
theorem put_user_u8_load (u : UserMem) (val addr : Nat) (hst : u.store_ok addr = true) :
    (put_user_u8 u val addr).1 = 0 ∧ (put_user_u8 u val addr).2.load addr = some (val % 256) := by
  simp [put_user_u8, hst]

/-- A word stored by `put_user_u32` is the word `get_user_u32` reads there. -/
theorem put_get_user_u32 (u : UserMem) (val addr : Nat)
    (h0 : u.store_ok addr = true) (h1 : u.store_ok (addr + 1) = true)
    (h2 : u.store_ok (addr + 2) = true) (h3 : u.store_ok (addr + 3) = true) :
    (put_user_u32 u val addr).1 = 0 ∧
    get_user_u32 (put_user_u32 u val addr).2 addr = (0, val % 2 ^ 32) := by
  unfold put_user_u32
  rw [h0, h1, h2, h3]
  simp only [Bool.and_self, if_true]
  refine ⟨trivial, ?_⟩
  unfold get_user_u32
  simp only [if_true, Nat.add_right_eq_self, OfNat.ofNat_ne_zero, if_false,
    add_right_inj, OfNat.ofNat_ne_one, Nat.reduceEqDiff, Prod.mk.injEq, true_and]
  omega

/-- C13: a write of the bits per word `b` (any byte the copy-in delivers)
returns 0 and changes nothing but that field, which becomes `b`, and the read
that follows stores exactly `b` in the caller's byte; likewise a write of the
speed `s` (any 32 bit word the copy-in delivers) changes nothing but that
field, which becomes `s`, and the read that follows stores exactly `s`. -/
theorem wr_bits_speed_roundtrip (F : SpiFlags) (heap heap2 : List (Option Nat))
    (u u2 us us2 : UserMem) (dev : vspi_dev) (arg arg2 args args2 b s : Nat)
    (hacc : u.access_ok VERIFY_READ arg 1 = true)
    (hget : get_user_u8 u arg = (0, b))
    (hacc2 : u2.access_ok VERIFY_WRITE arg2 1 = true)
    (hst : u2.store_ok arg2 = true)
    (haccs : us.access_ok VERIFY_READ args 4 = true)
    (hgets : get_user_u32 us args = (0, s))
    (haccs2 : us2.access_ok VERIFY_WRITE args2 4 = true)
    (hst0 : us2.store_ok args2 = true) (hst1 : us2.store_ok (args2 + 1) = true)
    (hst2 : us2.store_ok (args2 + 2) = true) (hst3 : us2.store_ok (args2 + 3) = true) :
    ((vspi_ioctl F heap u dev SPI_IOC_WR_BITS_PER_WORD arg).retval = 0 ∧
     (vspi_ioctl F heap u dev SPI_IOC_WR_BITS_PER_WORD arg).dev
       = { dev with bits_per_word := b } ∧
     (vspi_ioctl F heap2 u2 (vspi_ioctl F heap u dev SPI_IOC_WR_BITS_PER_WORD arg).dev
       SPI_IOC_RD_BITS_PER_WORD arg2).retval = 0 ∧
     (vspi_ioctl F heap2 u2 (vspi_ioctl F heap u dev SPI_IOC_WR_BITS_PER_WORD arg).dev
       SPI_IOC_RD_BITS_PER_WORD arg2).user.load arg2 = some b) ∧
    ((vspi_ioctl F heap us dev SPI_IOC_WR_MAX_SPEED_HZ args).retval = 0 ∧
     (vspi_ioctl F heap us dev SPI_IOC_WR_MAX_SPEED_HZ args).dev
       = { dev with max_speed_hz := s } ∧
     (vspi_ioctl F heap2 us2 (vspi_ioctl F heap us dev SPI_IOC_WR_MAX_SPEED_HZ args).dev
       SPI_IOC_RD_MAX_SPEED_HZ args2).retval = 0 ∧
     get_user_u32 (vspi_ioctl F heap2 us2
       (vspi_ioctl F heap us dev SPI_IOC_WR_MAX_SPEED_HZ args).dev
       SPI_IOC_RD_MAX_SPEED_HZ args2).user args2 = (0, s)) := by
  have hb : b < 256 := get_user_u8_lt u arg b 0 hget
  have hs : s < 2 ^ 32 := get_user_u32_lt us args s 0 hgets
  have hwb : vspi_ioctl F heap u dev SPI_IOC_WR_BITS_PER_WORD arg
      = ⟨0, { dev with bits_per_word := b }, u, []⟩ := by
    rw [ioctl_wr_bits_per_word_eq F heap u dev arg hacc]
    unfold ioctl_wr_bits_per_word
    simp only [hget]
    rw [if_pos trivial, Nat.mod_eq_of_lt (by omega : b < 2 ^ 8)]
  have hws : vspi_ioctl F heap us dev SPI_IOC_WR_MAX_SPEED_HZ args
      = ⟨0, { dev with max_speed_hz := s }, us, []⟩ := by
    rw [ioctl_wr_max_speed_hz_eq F heap us dev args haccs]
    unfold ioctl_wr_max_speed_hz
    simp only [hgets]
    rw [if_pos trivial, Nat.mod_eq_of_lt hs]
  rw [hwb, hws]
  refine ⟨⟨rfl, rfl, ?_, ?_⟩, ⟨rfl, rfl, ?_, ?_⟩⟩
  · rw [ioctl_rd_bits_per_word_eq F heap2 u2 _ arg2 hacc2]
    exact (put_user_u8_load u2 _ arg2 hst).1
  · rw [ioctl_rd_bits_per_word_eq F heap2 u2 _ arg2 hacc2]
    have := (put_user_u8_load u2 b arg2 hst).2
    rw [Nat.mod_eq_of_lt hb] at this
    exact this
  · rw [ioctl_rd_max_speed_hz_eq F heap2 us2 _ args2 haccs2]
    exact (put_get_user_u32 us2 _ args2 hst0 hst1 hst2 hst3).1
  · rw [ioctl_rd_max_speed_hz_eq F heap2 us2 _ args2 haccs2]
    have := (put_get_user_u32 us2 s args2 hst0 hst1 hst2 hst3).2
    rw [Nat.mod_eq_of_lt hs] at this
    exact this

/-- Witness of C13: 255 bits per word and a speed of 0xffffffff Hz. -/
theorem wr_bits_speed_roundtrip_witness :
    get_user_u8 (userHolding 255) 16 = (0, 255) ∧
    get_user_u32 (userHolding 255) 16 = (0, 0xffffffff) ∧
    (vspi_ioctl linuxFlags [] (userHolding 255) sampleOpened
      SPI_IOC_WR_BITS_PER_WORD 16).dev.bits_per_word = 255 ∧
    (vspi_ioctl linuxFlags [] (userHolding 0)
      (vspi_ioctl linuxFlags [] (userHolding 255) sampleOpened SPI_IOC_WR_BITS_PER_WORD 16).dev
      SPI_IOC_RD_BITS_PER_WORD 32).user.load 32 = some 255 ∧
    get_user_u32 (vspi_ioctl linuxFlags [] (userHolding 0)
      (vspi_ioctl linuxFlags [] (userHolding 255) sampleOpened SPI_IOC_WR_MAX_SPEED_HZ 16).dev
      SPI_IOC_RD_MAX_SPEED_HZ 32).user 32 = (0, 0xffffffff) :=
  have h := wr_bits_speed_roundtrip linuxFlags [] [] (userHolding 255) (userHolding 0)
    (userHolding 255) (userHolding 0) sampleOpened 16 32 16 32 255 0xffffffff
    (by decide) (by decide) (by decide) (by decide) (by decide) (by decide) (by decide)
    (by decide) (by decide) (by decide) (by decide)
  ⟨by decide, by decide, by rw [h.1.2.1], h.1.2.2.2, h.2.2.2.2⟩

/-- Bit `i` of 8 is set exactly for `i = 3`. -/
theorem testBit_eight (i : Nat) : (8 : Nat).testBit i = decide (3 = i) := by
  have h : (8 : Nat) = 2 ^ 3 := by norm_num
  rw [h, Nat.testBit_two_pow]

/-- The test `mode & 8` of the driver is non-zero exactly when bit 3 is set. -/
theorem and_eight_ne_zero_iff (m : Nat) : m &&& 8 ≠ 0 ↔ m.testBit 3 = true := by
  constructor
  · intro h
    obtain ⟨i, hi⟩ := Nat.ne_zero_implies_bit_true h
    rw [Nat.testBit_and, testBit_eight] at hi
    cases h3 : decide (3 = i) with
    | false => rw [h3] at hi; simp at hi
    | true =>
      have : 3 = i := of_decide_eq_true h3
      subst this
      rw [h3] at hi
      simpa using hi
  · intro h h0
    have hb : (m &&& 8).testBit 3 = false := by rw [h0]; exact Nat.zero_testBit 3
    rw [Nat.testBit_and, h, testBit_eight] at hb
    simp at hb

/-- Bits of the mode after `mode |= 8`. -/
theorem testBit_set_lsb (m i : Nat) (hm : m < 2 ^ 8) :
    ((m ||| 8) % 2 ^ 8).testBit i = (decide (3 = i) || m.testBit i) := by
  rw [Nat.testBit_mod_two_pow, Nat.testBit_or, testBit_eight]
  by_cases h8 : i < 8
  · simp [h8, Bool.or_comm]
  · have : m < 2 ^ i := lt_of_lt_of_le hm (Nat.pow_le_pow_right (by norm_num) (by omega))
    have h3 : ¬ (3 = i) := by omega
    rw [Nat.testBit_lt_two_pow this]
    simp [h8, h3]

/-- Bits of the mode after `mode &= ~8`. -/
theorem testBit_clear_lsb (m i : Nat) (hm : m < 2 ^ 8) :
    ((m &&& not32 8) % 2 ^ 8).testBit i = (!decide (3 = i) && m.testBit i) := by
  rw [Nat.testBit_mod_two_pow, Nat.testBit_and, testBit_not32, testBit_eight]
  by_cases h8 : i < 8
  · have h32 : i < 32 := by omega
    simp [h8, h32, Bool.and_comm]
  · have : m < 2 ^ i := lt_of_lt_of_le hm (Nat.pow_le_pow_right (by norm_num) (by omega))
    rw [Nat.testBit_lt_two_pow this]
    simp [h8]

/-- Bit 3 of the mode after `mode |= 8`, whatever the mode was. -/
theorem testBit_three_set (m : Nat) : ((m ||| 8) % 2 ^ 8).testBit 3 = true := by
  rw [Nat.testBit_mod_two_pow, Nat.testBit_or, testBit_eight]
  simp

/-- Bit 3 of the mode after `mode &= ~8`, whatever the mode was. -/
theorem testBit_three_clear (m : Nat) : ((m &&& not32 8) % 2 ^ 8).testBit 3 = false := by
  rw [Nat.testBit_mod_two_pow, Nat.testBit_and, testBit_not32, testBit_eight]
  simp

/-- The device after an accepted write of the bit order. -/
theorem wr_lsb_first_out (F : SpiFlags) (heap : List (Option Nat)) (u : UserMem)
    (dev : vspi_dev) (arg v : Nat) (hF : F.SPI_LSB_FIRST = 8)
    (hacc : u.access_ok VERIFY_READ arg 1 = true) (hget : get_user_u8 u arg = (0, v)) :
    vspi_ioctl F heap u dev SPI_IOC_WR_LSB_FIRST arg =
      ⟨0, { dev with mode := if v ≠ 0 then (dev.mode ||| 8) % 2 ^ 8
                             else (dev.mode &&& not32 8) % 2 ^ 8 }, u, []⟩ := by
  rw [ioctl_wr_lsb_first_eq F heap u dev arg hacc]
  unfold ioctl_wr_lsb_first
  simp only [hget, hF]
  rw [if_pos trivial]
  by_cases hv : v ≠ 0
  · rw [if_pos hv, if_pos hv]
  · rw [if_neg hv, if_neg hv]

/-- What a read of the bit order stores in the caller's byte. -/
theorem rd_lsb_first_out (F : SpiFlags) (heap : List (Option Nat)) (u : UserMem)
    (dev : vspi_dev) (arg : Nat) (hF : F.SPI_LSB_FIRST = 8)
    (hacc : u.access_ok VERIFY_WRITE arg 1 = true) (hst : u.store_ok arg = true) :
    (vspi_ioctl F heap u dev SPI_IOC_RD_LSB_FIRST arg).retval = 0 ∧
    (vspi_ioctl F heap u dev SPI_IOC_RD_LSB_FIRST arg).user.load arg
      = some (if dev.mode.testBit 3 = true then 1 else 0) ∧
    (vspi_ioctl F heap u dev SPI_IOC_RD_LSB_FIRST arg).dev = dev := by
  rw [ioctl_rd_lsb_first_eq F heap u dev arg hacc, hF]
  refine ⟨(put_user_u8_load u _ arg hst).1, ?_, rfl⟩
  show (put_user_u8 u _ arg).2.load arg = _
  rw [(put_user_u8_load u _ arg hst).2]
  by_cases h3 : dev.mode.testBit 3 = true
  · rw [if_pos ((and_eight_ne_zero_iff _).2 h3), if_pos h3]
  · rw [if_neg (fun h => h3 ((and_eight_ne_zero_iff _).1 h)), if_neg h3]

/-- C14 as stated fails: writing the bit order 2 and reading the bit order back
yields 1, not 2. -/
theorem bit_order_two_reads_one :
    get_user_u8 (userHolding 2) 16 = (0, 2) ∧
    (vspi_ioctl linuxFlags [] (userHolding 0)
      (vspi_ioctl linuxFlags [] (userHolding 2) sampleOpened SPI_IOC_WR_LSB_FIRST 16).dev
      SPI_IOC_RD_LSB_FIRST 32).user.load 32 ≠ some 2 ∧
    (vspi_ioctl linuxFlags [] (userHolding 2) sampleOpened SPI_IOC_WR_LSB_FIRST 16).retval = 0 ∧
    (vspi_ioctl linuxFlags [] (userHolding 0)
      (vspi_ioctl linuxFlags [] (userHolding 2) sampleOpened SPI_IOC_WR_LSB_FIRST 16).dev
      SPI_IOC_RD_LSB_FIRST 32).retval = 0 ∧
    (vspi_ioctl linuxFlags [] (userHolding 0)
      (vspi_ioctl linuxFlags [] (userHolding 2) sampleOpened SPI_IOC_WR_LSB_FIRST 16).dev
      SPI_IOC_RD_LSB_FIRST 32).user.load 32 = some 1 := by
  decide

/-- C14, amended: with the bit-order flag at 0x08, a successful write of the
bit order `v` followed by a read of the bit order returns 1 when `v` is
non-zero and 0 when `v` is zero. -/
theorem bit_order_roundtrip (F : SpiFlags) (heap heap2 : List (Option Nat)) (u u2 : UserMem)
    (dev : vspi_dev) (arg arg2 v : Nat) (hF : F.SPI_LSB_FIRST = 8)
    (hacc : u.access_ok VERIFY_READ arg 1 = true)
    (hget : get_user_u8 u arg = (0, v))
    (hacc2 : u2.access_ok VERIFY_WRITE arg2 1 = true)
    (hst : u2.store_ok arg2 = true) :
    (vspi_ioctl F heap u dev SPI_IOC_WR_LSB_FIRST arg).retval = 0 ∧
    (vspi_ioctl F heap2 u2 (vspi_ioctl F heap u dev SPI_IOC_WR_LSB_FIRST arg).dev
      SPI_IOC_RD_LSB_FIRST arg2).retval = 0 ∧
    (vspi_ioctl F heap2 u2 (vspi_ioctl F heap u dev SPI_IOC_WR_LSB_FIRST arg).dev
      SPI_IOC_RD_LSB_FIRST arg2).user.load arg2 = some (if v ≠ 0 then 1 else 0) := by
  rw [wr_lsb_first_out F heap u dev arg v hF hacc hget]
  obtain ⟨h1, h2, _⟩ := rd_lsb_first_out F heap2 u2
    { dev with mode := if v ≠ 0 then (dev.mode ||| 8) % 2 ^ 8
                       else (dev.mode &&& not32 8) % 2 ^ 8 } arg2 hF hacc2 hst
  refine ⟨rfl, h1, ?_⟩
  rw [h2]
  by_cases hv : v ≠ 0
  · simp only [if_pos hv, testBit_three_set]
    rfl
  · simp only [if_neg hv, testBit_three_clear]
    rfl

/-- Witness of amended C14: the bit order 2 reads back as 1. -/
theorem bit_order_roundtrip_witness :
    get_user_u8 (userHolding 2) 16 = (0, 2) ∧
    (vspi_ioctl linuxFlags [] (userHolding 0)
      (vspi_ioctl linuxFlags [] (userHolding 2) sampleOpened SPI_IOC_WR_LSB_FIRST 16).dev
      SPI_IOC_RD_LSB_FIRST 32).user.load 32 = some (if 2 ≠ 0 then 1 else 0) :=
  have h := bit_order_roundtrip linuxFlags [] [] (userHolding 2) (userHolding 0) sampleOpened
    16 32 2 rfl (by decide) (by decide) (by decide) (by decide)
  ⟨by decide, h.2.2⟩

/-- The device after an accepted write of the mode. -/
theorem wr_mode_out (F : SpiFlags) (heap : List (Option Nat)) (u : UserMem)
    (dev : vspi_dev) (arg v : Nat)
    (hacc : u.access_ok VERIFY_READ arg 1 = true) (hget : get_user_u8 u arg = (0, v))
    (hin : ∀ i, v.testBit i = true → (SPI_MODE_MASK F).testBit i = true) :
    vspi_ioctl F heap u dev SPI_IOC_WR_MODE arg =
      ⟨0, { dev with mode := (v ||| (dev.mode &&& not32 (SPI_MODE_MASK F))) % 2 ^ 8 }, u, []⟩ := by
  have hv : v < 256 := get_user_u8_lt u arg v 0 hget
  have hz : ¬ (v &&& not32 (SPI_MODE_MASK F) ≠ 0) := by
    rw [not_not]; exact (and_not32_eq_zero_iff v _ hv).2 hin
  rw [ioctl_wr_mode_eq F heap u dev arg hacc]
  unfold ioctl_wr_mode
  simp only [hget]
  rw [if_pos trivial, if_neg hz]

/-- With the bit-order flag at 8, bit 3 is a bit of the mode mask. -/
theorem mask_testBit_three (F : SpiFlags) (hF : F.SPI_LSB_FIRST = 8) :
    (SPI_MODE_MASK F).testBit 3 = true := by
  unfold SPI_MODE_MASK
  simp only [Nat.testBit_or, hF, testBit_eight]
  simp

/-- C20: with the bit-order flag at 0x08 and a stored mode `m` (a byte), a
successful write of the bit order `v` sets bit 3 of the mode when `v` is
non-zero and clears it when `v` is zero, and leaves every other bit of the
mode and every other field as it was; a read of the bit order on any device
stores 1 if bit 3 of its mode is set and 0 otherwise and changes nothing; so a
read of the bit order after a write of the mode `vm` tells bit 3 of `vm`, and
a read of the mode after a write of the bit order has bit 3 set exactly when
`v` is non-zero. -/
theorem bit_order_is_mode_bit (F : SpiFlags) (heap heap2 : List (Option Nat))
    (u u2 um : UserMem) (dev : vspi_dev) (arg arg2 argm v vm : Nat)
    (hF : F.SPI_LSB_FIRST = 8)
    (hm : dev.mode < 2 ^ 8)
    (hacc : u.access_ok VERIFY_READ arg 1 = true)
    (hget : get_user_u8 u arg = (0, v))
    (hacc2 : u2.access_ok VERIFY_WRITE arg2 1 = true)
    (hst : u2.store_ok arg2 = true)
    (haccm : um.access_ok VERIFY_READ argm 1 = true)
    (hgetm : get_user_u8 um argm = (0, vm))
    (hin : ∀ i, vm.testBit i = true → (SPI_MODE_MASK F).testBit i = true) :
    -- write-bitOrder
    (vspi_ioctl F heap u dev SPI_IOC_WR_LSB_FIRST arg).retval = 0 ∧
    (vspi_ioctl F heap u dev SPI_IOC_WR_LSB_FIRST arg).dev.mode.testBit 3 = decide (v ≠ 0) ∧
    (∀ i, i ≠ 3 → (vspi_ioctl F heap u dev SPI_IOC_WR_LSB_FIRST arg).dev.mode.testBit i
      = dev.mode.testBit i) ∧
    (vspi_ioctl F heap u dev SPI_IOC_WR_LSB_FIRST arg).dev
      = { dev with mode := (vspi_ioctl F heap u dev SPI_IOC_WR_LSB_FIRST arg).dev.mode } ∧
    -- read-bitOrder, on any device
    (∀ d : vspi_dev,
      (vspi_ioctl F heap2 u2 d SPI_IOC_RD_LSB_FIRST arg2).retval = 0 ∧
      (vspi_ioctl F heap2 u2 d SPI_IOC_RD_LSB_FIRST arg2).user.load arg2
        = some (if d.mode.testBit 3 = true then 1 else 0) ∧
      (vspi_ioctl F heap2 u2 d SPI_IOC_RD_LSB_FIRST arg2).dev = d) ∧
    -- read-bitOrder after write-mode
    (vspi_ioctl F heap2 u2 (vspi_ioctl F heap um dev SPI_IOC_WR_MODE argm).dev
      SPI_IOC_RD_LSB_FIRST arg2).user.load arg2
        = some (if vm.testBit 3 = true then 1 else 0) ∧
    -- read-mode after write-bitOrder
    (∃ r, (vspi_ioctl F heap2 u2 (vspi_ioctl F heap u dev SPI_IOC_WR_LSB_FIRST arg).dev
        SPI_IOC_RD_MODE arg2).user.load arg2 = some r ∧
      r.testBit 3 = decide (v ≠ 0)) := by
  have hmask := mask_testBit_three F hF
  have hrd : ∀ d : vspi_dev,
      (vspi_ioctl F heap2 u2 d SPI_IOC_RD_LSB_FIRST arg2).retval = 0 ∧
      (vspi_ioctl F heap2 u2 d SPI_IOC_RD_LSB_FIRST arg2).user.load arg2
        = some (if d.mode.testBit 3 = true then 1 else 0) ∧
      (vspi_ioctl F heap2 u2 d SPI_IOC_RD_LSB_FIRST arg2).dev = d :=
    fun d => rd_lsb_first_out F heap2 u2 d arg2 hF hacc2 hst
  rw [wr_lsb_first_out F heap u dev arg v hF hacc hget,
    wr_mode_out F heap um dev argm vm haccm hgetm hin]
  refine ⟨rfl, ?_, ?_, rfl, hrd, ?_, ?_⟩
  · show (if v ≠ 0 then (dev.mode ||| 8) % 2 ^ 8 else (dev.mode &&& not32 8) % 2 ^ 8).testBit 3
      = decide (v ≠ 0)
    by_cases hv : v ≠ 0
    · rw [if_pos hv, testBit_three_set]; simp [hv]
    · rw [if_neg hv, testBit_three_clear]; simp [hv]
  · intro i hi
    show (if v ≠ 0 then (dev.mode ||| 8) % 2 ^ 8 else (dev.mode &&& not32 8) % 2 ^ 8).testBit i
      = dev.mode.testBit i
    have h3 : ¬ (3 = i) := fun h => hi h.symm
    by_cases hv : v ≠ 0
    · rw [if_pos hv, testBit_set_lsb _ _ hm]; simp [h3]
    · rw [if_neg hv, testBit_clear_lsb _ _ hm]; simp [h3]
  · rw [(hrd _).2.1]
    show some (if ((vm ||| (dev.mode &&& not32 (SPI_MODE_MASK F))) % 2 ^ 8).testBit 3 = true
      then 1 else 0) = _
    have : ((vm ||| (dev.mode &&& not32 (SPI_MODE_MASK F))) % 2 ^ 8).testBit 3
        = vm.testBit 3 := by
      rw [Nat.testBit_mod_two_pow, Nat.testBit_or, Nat.testBit_and, testBit_not32, hmask]
      simp
    rw [this]
  · rw [ioctl_rd_mode_eq F heap2 u2 _ arg2 hacc2]
    refine ⟨_, (put_user_u8_load u2 _ arg2 hst).2, ?_⟩
    show ((((if v ≠ 0 then (dev.mode ||| 8) % 2 ^ 8 else (dev.mode &&& not32 8) % 2 ^ 8)
      &&& SPI_MODE_MASK F)) % 256).testBit 3 = decide (v ≠ 0)
    have h256 : (256 : Nat) = 2 ^ 8 := by norm_num
    rw [h256, Nat.testBit_mod_two_pow, Nat.testBit_and, hmask]
    by_cases hv : v ≠ 0
    · rw [if_pos hv, testBit_three_set]; simp [hv]
    · rw [if_neg hv, testBit_three_clear]; simp [hv]

/-- Witness of C20: the bit order 1 on the opened sample device, and the mode
8 written through the write-mode operation. -/
theorem bit_order_is_mode_bit_witness :
    sampleOpened.mode = 0 ∧
    (vspi_ioctl linuxFlags [] (userHolding 1) sampleOpened SPI_IOC_WR_LSB_FIRST 16).dev.mode.testBit 3
      = decide (1 ≠ 0) ∧
    (vspi_ioctl linuxFlags [] (userHolding 0)
      (vspi_ioctl linuxFlags [] (userHolding 8) sampleOpened SPI_IOC_WR_MODE 24).dev
      SPI_IOC_RD_LSB_FIRST 32).user.load 32 = some (if Nat.testBit 8 3 = true then 1 else 0) :=
  have h := bit_order_is_mode_bit linuxFlags [] [] (userHolding 1) (userHolding 0)
    (userHolding 8) sampleOpened 16 32 24 1 8 rfl (by decide) (by decide) (by decide)
    (by decide) (by decide) (by decide) (by decide) (by
      intro i hi
      have h8 : i < 8 := byte_testBit_lt 8 i (by norm_num) hi
      interval_cases i <;> rfl)
  ⟨by decide, h.2.1, h.2.2.2.2.2.1⟩

/-- C17: with the flag values of the Linux header `SPI_MODE_MASK` is 0xff, and
for every byte `v` the copy-in delivers, the write-mode operation returns 0,
not `-EINVAL`, and the stored mode becomes exactly `v`, nothing else
changing. -/
theorem linux_mode_any_byte (heap : List (Option Nat)) (u : UserMem)
    (dev : vspi_dev) (arg v : Nat)
    (hacc : u.access_ok VERIFY_READ arg 1 = true)
    (hget : get_user_u8 u arg = (0, v)) :
    SPI_MODE_MASK linuxFlags = 0xFF ∧
    (vspi_ioctl linuxFlags heap u dev SPI_IOC_WR_MODE arg).retval = 0 ∧
    (vspi_ioctl linuxFlags heap u dev SPI_IOC_WR_MODE arg).retval ≠ -EINVAL ∧
    (vspi_ioctl linuxFlags heap u dev SPI_IOC_WR_MODE arg).dev.mode = v ∧
    (vspi_ioctl linuxFlags heap u dev SPI_IOC_WR_MODE arg).dev = { dev with mode := v } := by
  have hv : v < 256 := get_user_u8_lt u arg v 0 hget
  have hmask : SPI_MODE_MASK linuxFlags = 2 ^ 8 - 1 := by decide
  have hin : ∀ i, v.testBit i = true → (SPI_MODE_MASK linuxFlags).testBit i = true := by
    intro i hi
    rw [hmask, Nat.testBit_two_pow_sub_one]
    exact decide_eq_true (byte_testBit_lt v i hv hi)
  have hmode : (v ||| (dev.mode &&& not32 (SPI_MODE_MASK linuxFlags))) % 2 ^ 8 = v := by
    apply Nat.eq_of_testBit_eq
    intro i
    rw [Nat.testBit_mod_two_pow, Nat.testBit_or, Nat.testBit_and, testBit_not32, hmask,
      Nat.testBit_two_pow_sub_one]
    by_cases h8 : i < 8
    · simp [h8]
    · have : v.testBit i = false := by
        cases hvi : v.testBit i with
        | false => rfl
        | true => exact absurd (byte_testBit_lt v i hv hvi) h8
      simp [h8, this]
  rw [wr_mode_out linuxFlags heap u dev arg v hacc hget hin, hmode]
  exact ⟨by decide, rfl, (by show (0 : Int) ≠ -EINVAL; decide), rfl, rfl⟩

/-- Witness of C17: the byte 0xff, every mode bit set. -/
theorem linux_mode_any_byte_witness :
    get_user_u8 (userHolding 0xff) 16 = (0, 0xff) ∧
    (vspi_ioctl linuxFlags [] (userHolding 0xff) sampleOpened SPI_IOC_WR_MODE 16).retval = 0 ∧
    (vspi_ioctl linuxFlags [] (userHolding 0xff) sampleOpened SPI_IOC_WR_MODE 16).dev.mode
      = 0xff :=
  have h := linux_mode_any_byte [] (userHolding 0xff) sampleOpened 16 0xff (by decide)
    (by decide)
  ⟨by decide, h.2.1, h.2.2.2.1⟩

/-- The write-mode case changes the mode only, and only when it returns 0. -/
theorem ioctl_wr_mode_config (F : SpiFlags) (u : UserMem) (dev : vspi_dev) (arg : Nat) :
    ConfigOnly dev (ioctl_wr_mode F u dev arg) ∧ (ioctl_wr_mode F u dev arg).trace = [] := by
  unfold ioctl_wr_mode ConfigOnly
  dsimp only
  by_cases h : (get_user_u8 u arg).1 = 0
  · rw [if_pos h]
    by_cases h2 : (get_user_u8 u arg).2 &&& not32 (SPI_MODE_MASK F) ≠ 0
    · rw [if_pos h2]; exact ⟨Or.inl rfl, rfl⟩
    · rw [if_neg h2]; exact ⟨Or.inr ⟨h, _, dev.bits_per_word, dev.max_speed_hz, rfl⟩, rfl⟩
  · rw [if_neg h]; exact ⟨Or.inl rfl, rfl⟩

/-- The write-bit-order case changes the mode only, and only when it returns 0. -/
theorem ioctl_wr_lsb_first_config (F : SpiFlags) (u : UserMem) (dev : vspi_dev) (arg : Nat) :
    ConfigOnly dev (ioctl_wr_lsb_first F u dev arg) ∧
      (ioctl_wr_lsb_first F u dev arg).trace = [] := by
  unfold ioctl_wr_lsb_first ConfigOnly
  dsimp only
  by_cases h : 0 = (get_user_u8 u arg).1
  · rw [if_pos h]
    by_cases h2 : (get_user_u8 u arg).2 ≠ 0
    · rw [if_pos h2]; exact ⟨Or.inr ⟨h.symm, _, dev.bits_per_word, dev.max_speed_hz, rfl⟩, rfl⟩
    · rw [if_neg h2]; exact ⟨Or.inr ⟨h.symm, _, dev.bits_per_word, dev.max_speed_hz, rfl⟩, rfl⟩
  · rw [if_neg h]; exact ⟨Or.inl rfl, rfl⟩

/-- The write-bits-per-word case changes that field only, and only when it
returns 0. -/
theorem ioctl_wr_bits_per_word_config (u : UserMem) (dev : vspi_dev) (arg : Nat) :
    ConfigOnly dev (ioctl_wr_bits_per_word u dev arg) ∧
      (ioctl_wr_bits_per_word u dev arg).trace = [] := by
  unfold ioctl_wr_bits_per_word ConfigOnly
  dsimp only
  by_cases h : 0 = (get_user_u8 u arg).1
  · rw [if_pos h]; exact ⟨Or.inr ⟨h.symm, dev.mode, _, dev.max_speed_hz, rfl⟩, rfl⟩
  · rw [if_neg h]; exact ⟨Or.inl rfl, rfl⟩

/-- The write-speed case changes that field only, and only when it returns 0. -/
theorem ioctl_wr_max_speed_hz_config (u : UserMem) (dev : vspi_dev) (arg : Nat) :
    ConfigOnly dev (ioctl_wr_max_speed_hz u dev arg) ∧
      (ioctl_wr_max_speed_hz u dev arg).trace = [] := by
  unfold ioctl_wr_max_speed_hz ConfigOnly
  dsimp only
  by_cases h : 0 = (get_user_u32 u arg).1
  · rw [if_pos h]; exact ⟨Or.inr ⟨h.symm, dev.mode, dev.bits_per_word, _, rfl⟩, rfl⟩
  · rw [if_neg h]; exact ⟨Or.inl rfl, rfl⟩

/-- The default case of the switch does not touch the semaphore. -/
theorem ioctl_default_no_sem (heap : List (Option Nat)) (u : UserMem)
    (dev : vspi_dev) (cmd arg : Nat) :
    downs (ioctl_default heap u dev cmd arg).trace = 0 ∧
    ups (ioctl_default heap u dev cmd arg).trace = 0 := by
  unfold ioctl_default
  dsimp only
  split_ifs
  · exact ⟨rfl, rfl⟩
  · exact ⟨rfl, rfl⟩
  · exact ⟨rfl, rfl⟩
  · cases (kmalloc (IOC_SIZE cmd) heap).1 with
    | none => exact ⟨rfl, rfl⟩
    | some ioc =>
      cases copy_from_user u arg (IOC_SIZE cmd) with
      | none => exact ⟨rfl, rfl⟩
      | some x => exact ⟨rfl, rfl⟩

/-- Every ioctl leaves the device alone or, returning 0, changes configuration
fields only; it is one of the four write codes that changes them; and its trace
holds no semaphore operation. -/
theorem ioctl_config_only (F : SpiFlags) (heap : List (Option Nat)) (u : UserMem)
    (dev : vspi_dev) (cmd arg : Nat) :
    ConfigOnly dev (vspi_ioctl F heap u dev cmd arg) ∧
    ((vspi_ioctl F heap u dev cmd arg).dev ≠ dev →
      cmd = SPI_IOC_WR_MODE ∨ cmd = SPI_IOC_WR_LSB_FIRST ∨
      cmd = SPI_IOC_WR_BITS_PER_WORD ∨ cmd = SPI_IOC_WR_MAX_SPEED_HZ) ∧
    downs (vspi_ioctl F heap u dev cmd arg).trace = 0 ∧
    ups (vspi_ioctl F heap u dev cmd arg).trace = 0 := by
  have same : ∀ (r : Int) (u' : UserMem), ConfigOnly dev ⟨r, dev, u', []⟩ ∧
      ((⟨r, dev, u', []⟩ : IoctlOutcome).dev ≠ dev →
        cmd = SPI_IOC_WR_MODE ∨ cmd = SPI_IOC_WR_LSB_FIRST ∨
        cmd = SPI_IOC_WR_BITS_PER_WORD ∨ cmd = SPI_IOC_WR_MAX_SPEED_HZ) ∧
      downs (⟨r, dev, u', []⟩ : IoctlOutcome).trace = 0 ∧
      ups (⟨r, dev, u', []⟩ : IoctlOutcome).trace = 0 :=
    fun r u' => ⟨Or.inl rfl, fun h => absurd rfl h, rfl, rfl⟩
  unfold vspi_ioctl
  by_cases h1 : IOC_TYPE cmd ≠ SPI_IOC_MAGIC
  · rw [if_pos h1]; exact same _ _
  rw [if_neg h1]
  by_cases h2 : access_err u cmd arg = true
  · rw [if_pos h2]; exact same _ _
  rw [if_neg h2]
  by_cases h3 : cmd = SPI_IOC_RD_MODE
  · rw [if_pos h3]; exact same _ _
  rw [if_neg h3]
  by_cases h4 : cmd = SPI_IOC_RD_LSB_FIRST
  · rw [if_pos h4]; exact same _ _
  rw [if_neg h4]
  by_cases h5 : cmd = SPI_IOC_RD_BITS_PER_WORD
  · rw [if_pos h5]; exact same _ _
  rw [if_neg h5]
  by_cases h6 : cmd = SPI_IOC_RD_MAX_SPEED_HZ
  · rw [if_pos h6]; exact same _ _
  rw [if_neg h6]
  by_cases h7 : cmd = SPI_IOC_WR_MODE
  · rw [if_pos h7]
    obtain ⟨hc, ht⟩ := ioctl_wr_mode_config F u dev arg
    rw [ht]; exact ⟨hc, fun _ => Or.inl h7, rfl, rfl⟩
  rw [if_neg h7]
  by_cases h8 : cmd = SPI_IOC_WR_LSB_FIRST
  · rw [if_pos h8]
    obtain ⟨hc, ht⟩ := ioctl_wr_lsb_first_config F u dev arg
    rw [ht]; exact ⟨hc, fun _ => Or.inr (Or.inl h8), rfl, rfl⟩
  rw [if_neg h8]
  by_cases h9 : cmd = SPI_IOC_WR_BITS_PER_WORD
  · rw [if_pos h9]
    obtain ⟨hc, ht⟩ := ioctl_wr_bits_per_word_config u dev arg
    rw [ht]; exact ⟨hc, fun _ => Or.inr (Or.inr (Or.inl h9)), rfl, rfl⟩
  rw [if_neg h9]
  by_cases h10 : cmd = SPI_IOC_WR_MAX_SPEED_HZ
  · rw [if_pos h10]
    obtain ⟨hc, ht⟩ := ioctl_wr_max_speed_hz_config u dev arg
    rw [ht]; exact ⟨hc, fun _ => Or.inr (Or.inr (Or.inr h10)), rfl, rfl⟩
  rw [if_neg h10]
  refine ⟨Or.inl (ioctl_default_dev heap u dev cmd arg), ?_, ioctl_default_no_sem heap u dev cmd arg⟩
  intro h
  exact absurd (ioctl_default_dev heap u dev cmd arg) h

/-- C18: whenever `vspi_ioctl` returns a non-zero value the device is exactly as
before, and the four read codes leave the device as before whatever they
return. -/
theorem ioctl_failure_no_change (F : SpiFlags) (heap : List (Option Nat)) (u : UserMem)
    (dev : vspi_dev) (cmd arg : Nat) :
    ((vspi_ioctl F heap u dev cmd arg).retval ≠ 0 →
      (vspi_ioctl F heap u dev cmd arg).dev = dev) ∧
    (cmd = SPI_IOC_RD_MODE ∨ cmd = SPI_IOC_RD_LSB_FIRST ∨ cmd = SPI_IOC_RD_BITS_PER_WORD ∨
        cmd = SPI_IOC_RD_MAX_SPEED_HZ →
      (vspi_ioctl F heap u dev cmd arg).dev = dev) := by
  obtain ⟨hc, hw, _, _⟩ := ioctl_config_only F heap u dev cmd arg
  constructor
  · intro hne
    rcases hc with h | ⟨h0, _⟩
    · exact h
    · exact absurd h0 hne
  · intro hrd
    by_contra hch
    have hwr := hw hch
    rcases hrd with h | h | h | h <;> subst h <;> revert hwr <;> decide

/-- Witness of C18: a rejected write of the mode, and a read of the speed. -/
theorem ioctl_failure_no_change_witness :
    (vspi_ioctl narrowFlags [] (userHolding 0x80) sampleOpened SPI_IOC_WR_MODE 16).retval ≠ 0 ∧
    (vspi_ioctl narrowFlags [] (userHolding 0x80) sampleOpened SPI_IOC_WR_MODE 16).dev
      = sampleOpened ∧
    (vspi_ioctl linuxFlags [] (userHolding 0) sampleOpened SPI_IOC_RD_MAX_SPEED_HZ 16).retval
      = 0 ∧
    (vspi_ioctl linuxFlags [] (userHolding 0) sampleOpened SPI_IOC_RD_MAX_SPEED_HZ 16).dev
      = sampleOpened :=
  ⟨by decide,
   (ioctl_failure_no_change narrowFlags [] (userHolding 0x80) sampleOpened SPI_IOC_WR_MODE 16).1
     (by decide),
   by decide,
   (ioctl_failure_no_change linuxFlags [] (userHolding 0) sampleOpened
     SPI_IOC_RD_MAX_SPEED_HZ 16).2 (Or.inr (Or.inr (Or.inr rfl)))⟩

/-- How open uses the semaphore. -/
theorem open_sem (maxb : Nat) (w : Wait) (heap : List (Option Nat)) (dev : vspi_dev) :
    ((down_interruptible w dev.sem).1 = 0 →
      (vspi_open maxb w heap dev).trace.head? = some Event.down ∧
      (vspi_open maxb w heap dev).trace.getLast? = some Event.up ∧
      downs (vspi_open maxb w heap dev).trace = 1 ∧
      ups (vspi_open maxb w heap dev).trace = 1 ∧
      (vspi_open maxb w heap dev).dev.sem = up (down_interruptible w dev.sem).2) ∧
    ((down_interruptible w dev.sem).1 ≠ 0 →
      (vspi_open maxb w heap dev).retval = -ERESTARTSYS ∧
      (vspi_open maxb w heap dev).dev = dev ∧
      (vspi_open maxb w heap dev).trace = []) := by
  obtain ⟨isMaster, sem, isOpened, rp, wp, mode, bpw, hz⟩ := dev
  constructor
  · intro hacq
    simp only at hacq
    by_cases ho : isOpened = 0
    · cases rp <;> cases wp <;>
        rcases heap with _ | ⟨_ | a, _ | ⟨_ | b, t⟩⟩ <;>
        simp [vspi_open, hacq, ho, kmalloc, downs, ups]
    · simp [vspi_open, hacq, ho, downs, ups]
  · intro hint
    simp only at hint
    simp [vspi_open, hint]

/-- How release uses the semaphore. -/
theorem release_sem (w : Wait) (dev : vspi_dev) :
    ((down_interruptible w dev.sem).1 = 0 →
      (vspi_release w dev).trace.head? = some Event.down ∧
      (vspi_release w dev).trace.getLast? = some Event.up ∧
      downs (vspi_release w dev).trace = 1 ∧
      ups (vspi_release w dev).trace = 1 ∧
      (vspi_release w dev).dev.sem = up (down_interruptible w dev.sem).2) ∧
    ((down_interruptible w dev.sem).1 ≠ 0 →
      (vspi_release w dev).retval = -ERESTARTSYS ∧
      (vspi_release w dev).dev = dev ∧
      (vspi_release w dev).trace = []) := by
  obtain ⟨isMaster, sem, isOpened, rp, wp, mode, bpw, hz⟩ := dev
  constructor
  · intro hacq
    simp only at hacq
    by_cases ho : isOpened = 0
    · cases rp <;> cases wp <;> simp [vspi_release, hacq, ho, downs, ups]
    · by_cases h1 : isOpened - 1 = 0
      · cases rp <;> cases wp <;> simp [vspi_release, hacq, ho, h1, downs, ups]
      · simp [vspi_release, hacq, ho, h1, downs, ups]
  · intro hint
    simp only at hint
    simp [vspi_release, hint]

/-- A free semaphore is taken at once and is free again after `up`. -/
theorem down_free (w : Wait) : down_interruptible w 1 = (0, 0) := by
  simp [down_interruptible]

/-- One call leaves a free semaphore free. -/
theorem step_sem (maxb : Nat) (F : SpiFlags) (dev : vspi_dev) (op : Op)
    (h : dev.sem = 1) : (step maxb F dev op).sem = 1 :=
  match op with
  | Op.open w heap => by
    have := ((open_sem maxb w heap dev).1 (by rw [h, down_free])).2.2.2.2
    simp only [step]; rw [this, h, down_free]; rfl
  | Op.release w => by
    have := ((release_sem w dev).1 (by rw [h, down_free])).2.2.2.2
    simp only [step]; rw [this, h, down_free]; rfl
  | Op.read count => by simp only [step, vspi_read]; split_ifs <;> exact h
  | Op.write count => by simp only [step, vspi_write]; split_ifs <;> exact h
  | Op.ioctl heap u cmd arg => by
    simp only [step]
    rcases (ioctl_config_only F heap u dev cmd arg).1 with hc | ⟨_, m, b, s, hc⟩
    · rw [hc]; exact h
    · rw [hc]; exact h

/-- A sequence of calls leaves a free semaphore free. -/
theorem run_sem (maxb : Nat) (F : SpiFlags) (ops : List Op) :
    ∀ dev : vspi_dev, dev.sem = 1 → (run maxb F dev ops).sem = 1 := by
  induction ops with
  | nil => intro dev h; exact h
  | cons op rest ih =>
    intro dev h
    exact ih (step maxb F dev op) (step_sem maxb F dev op h)

/-- C19: with the semaphore as a counter that `vspi_init` sets to 1: an open or
release that takes the semaphore has exactly one `down`, first in its trace,
and exactly one `up`, last in its trace, on every path; one whose wait is
interrupted returns `-ERESTARTSYS` with the device, semaphore included, as
before and an empty trace; so a count of 1 is 1 again after the call, and it is
1 after every sequence of calls from the initial state. -/
theorem gate_released_once (maxb : Nat) (F : SpiFlags) (w : Wait) (heap : List (Option Nat))
    (dev : vspi_dev) (i : Nat) (ops : List Op) :
    ((down_interruptible w dev.sem).1 = 0 →
      (downs (vspi_open maxb w heap dev).trace = 1 ∧
       ups (vspi_open maxb w heap dev).trace = 1 ∧
       (vspi_open maxb w heap dev).trace.head? = some Event.down ∧
       (vspi_open maxb w heap dev).trace.getLast? = some Event.up ∧
       (vspi_open maxb w heap dev).dev.sem = up (down_interruptible w dev.sem).2) ∧
      (downs (vspi_release w dev).trace = 1 ∧
       ups (vspi_release w dev).trace = 1 ∧
       (vspi_release w dev).trace.head? = some Event.down ∧
       (vspi_release w dev).trace.getLast? = some Event.up ∧
       (vspi_release w dev).dev.sem = up (down_interruptible w dev.sem).2)) ∧
    ((down_interruptible w dev.sem).1 ≠ 0 →
      (vspi_open maxb w heap dev).retval = -ERESTARTSYS ∧
      (vspi_open maxb w heap dev).dev = dev ∧
      (vspi_open maxb w heap dev).trace = [] ∧
      (vspi_release w dev).retval = -ERESTARTSYS ∧
      (vspi_release w dev).dev = dev ∧
      (vspi_release w dev).trace = []) ∧
    (dev.sem = 1 →
      (vspi_open maxb w heap dev).dev.sem = 1 ∧ (vspi_release w dev).dev.sem = 1) ∧
    (vspi_init_dev i).sem = 1 ∧
    (run maxb F (vspi_init_dev i) ops).sem = 1 := by
  refine ⟨?_, ?_, ?_, rfl, run_sem maxb F ops _ rfl⟩
  · intro hacq
    obtain ⟨a1, a2, a3, a4, a5⟩ := (open_sem maxb w heap dev).1 hacq
    obtain ⟨b1, b2, b3, b4, b5⟩ := (release_sem w dev).1 hacq
    exact ⟨⟨a3, a4, a1, a2, a5⟩, ⟨b3, b4, b1, b2, b5⟩⟩
  · intro hint
    obtain ⟨a1, a2, a3⟩ := (open_sem maxb w heap dev).2 hint
    obtain ⟨b1, b2, b3⟩ := (release_sem w dev).2 hint
    exact ⟨a1, a2, a3, b1, b2, b3⟩
  · intro h1
    have hacq : (down_interruptible w dev.sem).1 = 0 := by rw [h1, down_free]
    have ho := ((open_sem maxb w heap dev).1 hacq).2.2.2.2
    have hr := ((release_sem w dev).1 hacq).2.2.2.2
    rw [ho, hr, h1, down_free]
    exact ⟨rfl, rfl⟩

/-- Witness of C19: an open of the opened sample device, whose semaphore is
free, and an open and a release of a device whose semaphore is held while a
signal arrives. -/
theorem gate_released_once_witness :
    (down_interruptible Wait.woken sampleOpened.sem).1 = 0 ∧
    ups (vspi_open 4096 Wait.woken [] sampleOpened).trace = 1 ∧
    (vspi_open 4096 Wait.woken [] sampleOpened).dev.sem = 1 ∧
    (down_interruptible Wait.signal heldDevice.sem).1 ≠ 0 ∧
    (vspi_open 4096 Wait.signal [] heldDevice).retval = -ERESTARTSYS ∧
    (vspi_release Wait.signal heldDevice).dev = heldDevice :=
  have h := gate_released_once 4096 linuxFlags Wait.woken [] sampleOpened 1 []
  have g := gate_released_once 4096 linuxFlags Wait.signal [] heldDevice 1 []
  ⟨by decide, (h.1 (by decide)).1.2.1, (h.2.2.1 (by decide)).1, by decide,
    (g.2.1 (by decide)).1, (g.2.1 (by decide)).2.2.2.2.1⟩

/-- C15, the code on the scenario: master and slave are open, the master
submits one segment whose four bytes de ad be ef lie in the caller's memory;
the ioctl returns 0 after a call of `vspi_message`, which moves nothing, and
the slave's read of 4 bytes returns `-ENOMEM` instead of the bytes. -/
theorem message_moves_no_bytes :
    sampleMaster.isOpened = 1 ∧ sampleOpened.isOpened = 1 ∧
    copy_from_user segmentUser 128 4 = some [0xde, 0xad, 0xbe, 0xef] ∧
    (vspi_ioctl linuxFlags [some 500] segmentUser sampleMaster (SPI_IOC_MESSAGE 1) 64).retval
      = 0 ∧
    (vspi_ioctl linuxFlags [some 500] segmentUser sampleMaster (SPI_IOC_MESSAGE 1) 64).trace
      = [Event.kmalloc 32 (some 500), Event.message 1, Event.kfree 500] ∧
    (vspi_ioctl linuxFlags [some 500] segmentUser sampleMaster (SPI_IOC_MESSAGE 1) 64).dev
      = sampleMaster ∧
    (vspi_read 4096 sampleOpened 4).retval = -ENOMEM ∧
    (vspi_read 4096 sampleOpened 4).retval < 0 := by
  decide

/-- C16, the code: no ioctl, whatever its arguments, takes or releases the
semaphore, and a write-mode ioctl changes the stored mode from 0 to 3 with an
empty trace. -/
theorem ioctl_takes_no_gate :
    (∀ (F : SpiFlags) (heap : List (Option Nat)) (u : UserMem) (dev : vspi_dev) (cmd arg : Nat),
      downs (vspi_ioctl F heap u dev cmd arg).trace = 0 ∧
      ups (vspi_ioctl F heap u dev cmd arg).trace = 0) ∧
    sampleOpened.mode = 0 ∧
    (vspi_ioctl linuxFlags [] (userHolding 3) sampleOpened SPI_IOC_WR_MODE 16).retval = 0 ∧
    (vspi_ioctl linuxFlags [] (userHolding 3) sampleOpened SPI_IOC_WR_MODE 16).dev.mode = 3 ∧
    (vspi_ioctl linuxFlags [] (userHolding 3) sampleOpened SPI_IOC_WR_MODE 16).trace = [] :=
  ⟨fun F heap u dev cmd arg => (ioctl_config_only F heap u dev cmd arg).2.2,
    by decide, by decide, by decide, by decide⟩

end Vspi
